import Mathlib

/-!
Verification development for the `json_schema_to_pydantic` schema-to-model
compiler (files `resolvers.py`, `handlers.py`, `model_builder.py`).

The Python code is shallowly embedded: JSON documents become the inductive
`Json` (Python dicts are ordered association lists, as Python dicts preserve
insertion order), Python exceptions become the `Except Err` monad, the
reference resolver's mutable in-progress set and the in-place mutation of the
root schema become explicit state threading, and general recursion is made
total with an explicit fuel parameter (fuel exhaustion is the distinguished
error `Err.fuel`; every recursive function consumes one unit of fuel per
call, so any sufficiently large fuel computes the Python result).
-/

/-- JSON-compatible values.  Python dicts are modelled as ordered association
lists (Python dicts preserve insertion order). -/
inductive Json where
  | null
  | bool (b : Bool)
  | num (n : Int)
  | str (s : String)
  | arr (elems : List Json)
  | obj (fields : List (String × Json))

-- Decidable equality of JSON values (written by hand: `deriving` does not
-- handle the nested lists).
mutual

def Json.decEq : (a b : Json) → Decidable (a = b)
  | .null, .null => .isTrue rfl
  | .bool x, .bool y =>
      if h : x = y then .isTrue (by rw [h])
      else .isFalse (fun he => h (Json.bool.inj he))
  | .num x, .num y =>
      if h : x = y then .isTrue (by rw [h])
      else .isFalse (fun he => h (Json.num.inj he))
  | .str x, .str y =>
      if h : x = y then .isTrue (by rw [h])
      else .isFalse (fun he => h (Json.str.inj he))
  | .arr xs, .arr ys =>
      match Json.decEqL xs ys with
      | .isTrue h => .isTrue (by rw [h])
      | .isFalse h => .isFalse (fun he => h (Json.arr.inj he))
  | .obj xs, .obj ys =>
      match Json.decEqO xs ys with
      | .isTrue h => .isTrue (by rw [h])
      | .isFalse h => .isFalse (fun he => h (Json.obj.inj he))
  | .null, .bool _ | .null, .num _ | .null, .str _ | .null, .arr _
  | .null, .obj _ => .isFalse nofun
  | .bool _, .null | .bool _, .num _ | .bool _, .str _ | .bool _, .arr _
  | .bool _, .obj _ => .isFalse nofun
  | .num _, .null | .num _, .bool _ | .num _, .str _ | .num _, .arr _
  | .num _, .obj _ => .isFalse nofun
  | .str _, .null | .str _, .bool _ | .str _, .num _ | .str _, .arr _
  | .str _, .obj _ => .isFalse nofun
  | .arr _, .null | .arr _, .bool _ | .arr _, .num _ | .arr _, .str _
  | .arr _, .obj _ => .isFalse nofun
  | .obj _, .null | .obj _, .bool _ | .obj _, .num _ | .obj _, .str _
  | .obj _, .arr _ => .isFalse nofun

def Json.decEqL : (a b : List Json) → Decidable (a = b)
  | [], [] => .isTrue rfl
  | [], _ :: _ => .isFalse nofun
  | _ :: _, [] => .isFalse nofun
  | x :: xs, y :: ys =>
      match Json.decEq x y with
      | .isFalse h1 => .isFalse (fun he => h1 (List.cons.inj he).1)
      | .isTrue h1 =>
          match Json.decEqL xs ys with
          | .isTrue h2 => .isTrue (by rw [h1, h2])
          | .isFalse h2 => .isFalse (fun he => h2 (List.cons.inj he).2)

def Json.decEqO : (a b : List (String × Json)) → Decidable (a = b)
  | [], [] => .isTrue rfl
  | [], _ :: _ => .isFalse nofun
  | _ :: _, [] => .isFalse nofun
  | (k, v) :: xs, (k2, v2) :: ys =>
      if hk : k = k2 then
        match Json.decEq v v2 with
        | .isFalse h1 =>
            .isFalse (fun he => h1 (Prod.ext_iff.mp (List.cons.inj he).1).2)
        | .isTrue h1 =>
            match Json.decEqO xs ys with
            | .isTrue h2 => .isTrue (by rw [hk, h1, h2])
            | .isFalse h2 => .isFalse (fun he => h2 (List.cons.inj he).2)
      else .isFalse (fun he => hk (Prod.ext_iff.mp (List.cons.inj he).1).1)

end

instance : DecidableEq Json := Json.decEq

/-- Errors raised by the compiler.  `typeError`, `referenceError`,
`combinerError`, `schemaError` mirror the exception classes exported by the
package; `pyError` stands for an uncaught Python exception (e.g. `TypeError`
or `AttributeError` from subscripting or calling `.get` on a non-dict
value); `fuel` is the artefact of the fuel-based embedding. -/
inductive Err where
  | typeError (msg : String)
  | referenceError (msg : String)
  | combinerError (msg : String)
  | schemaError (msg : String)
  | pyError (msg : String)
  | fuel
deriving DecidableEq

/-- `d.get(k)` on a Python dict modelled as an association list. -/
def alookup (kvs : List (String × Json)) (k : String) : Option Json :=
  match kvs with
  | [] => none
  | (k', v) :: rest => if k' = k then some v else alookup rest k

/-- `d[k] = v` on a Python dict: replaces the value in place if `k` is
present (keeping its position, as Python dicts do), else appends. -/
def setKey (kvs : List (String × Json)) (k : String) (v : Json) :
    List (String × Json) :=
  match kvs with
  | [] => [(k, v)]
  | (k', v') :: rest =>
      if k' = k then (k, v) :: rest else (k', v') :: setKey rest k v

/-- Python truthiness of a JSON value (`if not x`). -/
def truthy : Json → Bool
  | Json.null => false
  | Json.bool b => b
  | Json.num n => n != 0
  | Json.str s => !s.isEmpty
  | Json.arr xs => !xs.isEmpty
  | Json.obj kvs => !kvs.isEmpty

/-- `schema.get(k)` where the receiver is known to be a dict at the source
call site; on a non-dict receiver the source would raise, and the call
sites below guard for that separately with a `pyError`. -/
def jget (j : Json) (k : String) : Option Json :=
  match j with
  | Json.obj kvs => alookup kvs k
  | _ => none

/-- Metadata attached to a generated field (the keyword arguments of the
pydantic `Field(...)` call): description, validation-constraint keywords,
and the default value (`none` = no default = required field). -/
structure FieldInfo where
  description : Option Json := none
  constraints : List (String × Json) := []
  default : Option Json := none
deriving DecidableEq

/-- The Python type expressions produced by the compiler (`str`, `int`,
`Optional[...]`, `Literal[...]`, generated pydantic model classes, unions,
`RootModel[...]`, ...). -/
inductive PyType where
  /-- `Optional[Any]` -/
  | optionalAny
  /-- `Literal[c]` for a single `const` value -/
  | lit (v : Json)
  /-- `Literal[tuple(enum)]` -/
  | litList (vs : List Json)
  /-- `Optional[t]` -/
  | optional (t : PyType)
  /-- `Set[t]` -/
  | pset (t : PyType)
  /-- `List[t]` -/
  | plist (t : PyType)
  | pdatetime
  | anyUrl
  | uuid
  | emailStr
  | pstr
  | pint
  | pfloat
  | pbool
  /-- plain `dict` (the placeholder type for `type: object` leaves) -/
  | pdict
  /-- a generated pydantic model: name, fields (name, type, metadata) in
  declaration order, whether `extra` is forbidden, and the docstring -/
  | model (name : String) (fields : List (String × PyType × FieldInfo))
      (extraForbid : Bool) (doc : Option Json)
  /-- `Union[ts]` -/
  | union (ts : List PyType)
  /-- `RootModel[t]` -/
  | rootModel (t : PyType)
  /-- `Annotated[Union[ts], Discriminator(discriminator=d)]` -/
  | discUnion (d : String) (ts : List PyType)

/-! ## TypeResolver (`resolvers.py`, `TypeResolver.resolve_type`) -/

/-- The final `type_map` lookup of `resolve_type`
(`type_map.get(schema_type, str)`): unrecognized type names fall back to
plain `str`. -/
def typeMap (t : Json) : PyType :=
  if t = Json.str "string" then .pstr
  else if t = Json.str "integer" then .pint
  else if t = Json.str "number" then .pfloat
  else if t = Json.str "boolean" then .pbool
  else if t = Json.str "object" then .pdict
  else .pstr

/-- The `format_map` lookup for `type: "string"` with a `format`
(`format_map.get(format_type, str)`): unknown formats fall back to `str`. -/
def formatMap (f : Json) : PyType :=
  if f = Json.str "date-time" then .pdatetime
  else if f = Json.str "email" then .pstr
  else if f = Json.str "uri" then .anyUrl
  else if f = Json.str "uuid" then .uuid
  else .pstr

/-- `TypeResolver.resolve_type(schema, root_schema)`.  The `root` argument is
never read by the source but is kept for fidelity. -/
def resolve_type : Nat → Json → Json → Except Err PyType
  | 0, _, _ => .error .fuel
  | fuel + 1, schema, root =>
    match schema with
    | Json.obj kvs =>
      match alookup kvs "const" with
      | some c => if c = Json.null then .ok .optionalAny else .ok (.lit c)
      | none =>
        if alookup kvs "type" = some (Json.str "null") then .ok .optionalAny
        else
          match alookup kvs "type" with
          | some (Json.arr types) =>
            if (Json.str "null") ∈ types then
              match types.filter (fun t => t ≠ Json.str "null") with
              | [t0] =>
                  match resolve_type fuel (Json.obj [("type", t0)]) root with
                  | .ok u => .ok (.optional u)
                  | .error e => .error e
              | _ => .error (.typeError "Unsupported type combination")
            else .error (.typeError "Unsupported type combination")
          | _ =>
            match alookup kvs "enum" with
            | some e =>
              if !truthy e then
                .error (.typeError "Enum must have at least one value")
              else
                match e with
                | Json.arr vs => .ok (.litList vs)
                | _ =>
                  -- `tuple(non-list)` raises in Python
                  .error (.pyError "enum value is not iterable")
            | none =>
              match alookup kvs "type" with
              | none => .error (.typeError "Schema must specify a type")
              | some t =>
                if !truthy t then
                  .error (.typeError "Schema must specify a type")
                else if t = Json.str "array" then
                  match alookup kvs "items" with
                  | some items =>
                    if !truthy items then
                      .error (.typeError "Array type must specify 'items' schema")
                    else
                      match resolve_type fuel items root with
                      | .ok it =>
                          if truthy ((alookup kvs "uniqueItems").getD (Json.bool false)) then
                            .ok (.pset it)
                          else .ok (.plist it)
                      | .error e => .error e
                  | none => .error (.typeError "Array type must specify 'items' schema")
                else if t = Json.str "string" then
                  match alookup kvs "format" with
                  | some f => .ok (formatMap f)
                  | none => .ok (typeMap t)
                else
                  .ok (typeMap t)
    | _ => .error (.typeError "Invalid schema: expected dict")

example : resolve_type 2 (Json.obj [("type", Json.str "frobnicate")]) (Json.obj [])
    = .ok .pstr := rfl

example : resolve_type 2 (Json.obj [("type", Json.arr [Json.str "string"])]) (Json.obj [])
    = .error (.typeError "Unsupported type combination") := rfl

example : resolve_type 2 (Json.obj [("type", Json.arr [Json.str "string", Json.str "null"])]) (Json.obj [])
    = .ok (.optional .pstr) := rfl

example : resolve_type 2 (Json.obj []) (Json.obj [])
    = .error (.typeError "Schema must specify a type") := rfl

def Json.isStr : Json → Bool
  | Json.str _ => true
  | _ => false

def Json.isNum : Json → Bool
  | Json.num _ => true
  | _ => false

def Json.isBool : Json → Bool
  | Json.bool _ => true
  | _ => false

def Json.isObj : Json → Bool
  | Json.obj _ => true
  | _ => false

/-! ## Instantiation semantics of generated models

Generated models are pydantic classes; instantiating one with keyword
arguments validates them.  This models that external collaborator: present
arguments are validated against the field's type, absent arguments take the
field's default (pydantic does not validate defaults by default), a field
with no default is required, and extra keys are rejected exactly when the
model's config forbids them. -/

mutual

def typeCheck : Nat → PyType → Json → Bool
  | 0, _, _ => false
  | fuel + 1, t, v =>
    match t with
    | .optionalAny => true
    | .lit c => v = c
    | .litList cs => cs.contains v
    | .optional t' => v = Json.null || typeCheck fuel t' v
    | .pset t' => match v with | Json.arr xs => jsonAll fuel t' xs | _ => false
    | .plist t' => match v with | Json.arr xs => jsonAll fuel t' xs | _ => false
    | .pdatetime => v.isStr
    | .anyUrl => v.isStr
    | .uuid => v.isStr
    | .emailStr => v.isStr
    | .pstr => v.isStr
    | .pint => v.isNum
    | .pfloat => v.isNum
    | .pbool => v.isBool
    | .pdict => v.isObj
    | .model _ fs ef _ =>
        match v with
        | Json.obj kvs => (constructCore fuel fs ef kvs).isOk
        | _ => false
    | .union ts => anyCheck fuel ts v
    | .rootModel t' => typeCheck fuel t' v
    | .discUnion _ ts => anyCheck fuel ts v

def jsonAll : Nat → PyType → List Json → Bool
  | 0, _, _ => false
  | _ + 1, _, [] => true
  | fuel + 1, t, x :: xs => typeCheck fuel t x && jsonAll fuel t xs

def anyCheck : Nat → List PyType → Json → Bool
  | 0, _, _ => false
  | _ + 1, [], _ => false
  | fuel + 1, t :: ts, v => typeCheck fuel t v || anyCheck fuel ts v

def constructCore : Nat → List (String × PyType × FieldInfo) → Bool →
    List (String × Json) → Except String (List (String × Json))
  | 0, _, _, _ => .error "fuel"
  | fuel + 1, fs, ef, input =>
      if ef && !(input.all (fun kv => fs.any (fun f => f.1 = kv.1))) then
        .error "extra fields forbidden"
      else constructFields fuel fs input

def constructFields : Nat → List (String × PyType × FieldInfo) →
    List (String × Json) → Except String (List (String × Json))
  | 0, _, _ => .error "fuel"
  | _ + 1, [], _ => .ok []
  | fuel + 1, (n, t, fi) :: rest, input =>
      match alookup input n with
      | some v =>
          if typeCheck fuel t v then
            match constructFields fuel rest input with
            | .ok out => .ok ((n, v) :: out)
            | .error e => .error e
          else .error ("validation failed for field " ++ n)
      | none =>
          match fi.default with
          | some d =>
              match constructFields fuel rest input with
              | .ok out => .ok ((n, d) :: out)
              | .error e => .error e
          | none => .error ("missing required field " ++ n)

end

/-- Instantiate a generated model with keyword arguments. -/
def constructModel (fuel : Nat) (t : PyType) (input : List (String × Json)) :
    Except String (List (String × Json)) :=
  match t with
  | .model _ fs ef _ => constructCore fuel fs ef input
  | _ => .error "not a model type"

/-! ## ConstraintBuilder (spec-modelled)

`handlers.py` and `model_builder.py` import `ConstraintBuilder` from
`.builders`, but `builders.py` is not under `src/`. -/

/-- Result of `build_constraints`: either a mapping of validation-constraint
keywords, or a concrete type override (the caller checks which with
`isinstance(constraints, type)`). -/
inductive ConstraintResult where
  | typeOverride (t : PyType)
  | kwargs (cs : List (String × Json))

/-- The validation-constraint keywords of §4.3 (bounds, length, pattern). -/
def constraintKeys : List String :=
  ["minimum", "maximum", "exclusiveMinimum", "exclusiveMaximum",
   "minLength", "maxLength", "pattern", "multipleOf", "minItems", "maxItems"]

/-- Modelled from the spec: `ConstraintBuilder.build_constraints` is missing
from `src/` (`builders.py` is not present; only its callers are).  Per §4.3
it returns either (a) a mapping of the validation-constraint keywords present
in the fragment, or (b) a concrete type override signaling that the value
type itself must change (an email-formatted string becomes a distinct
validated string type). -/
def build_constraints (schema : Json) : ConstraintResult :=
  match schema with
  | Json.obj kvs =>
      if alookup kvs "type" = some (Json.str "string") ∧
          alookup kvs "format" = some (Json.str "email") then
        .typeOverride .emailStr
      else .kwargs (kvs.filter (fun kv => constraintKeys.contains kv.1))
  | _ => .kwargs []

mutual

/-- Modelled from the spec: `ConstraintBuilder.merge_constraints` is missing
from `src/`.  Per §4.3, redeclared property schemas are deep-merged, the
later branch's keys overriding. -/
def merge_constraints : Nat → Json → Json → Json
  | 0, _, b => b
  | fuel + 1, Json.obj a, Json.obj b => Json.obj (mergeInto fuel a b)
  | _ + 1, _, b => b

def mergeInto : Nat → List (String × Json) → List (String × Json) →
    List (String × Json)
  | 0, acc, _ => acc
  | _ + 1, acc, [] => acc
  | fuel + 1, acc, (k, v) :: rest =>
      let acc2 :=
        match alookup acc k with
        | some old => setKey acc k (merge_constraints fuel old v)
        | none => setKey acc k v
      mergeInto fuel acc2 rest

end

/-! ## CombinerHandler (`handlers.py`) -/

/-- Membership test `x in required_fields` where `x` is
`prop_schema.get("name")` (i.e. `None` when the key is absent) and
`required_fields` is a Python list of JSON values. -/
def memJ (o : Option Json) (l : List Json) : Bool :=
  match o with
  | some v => l.contains v
  | none => l.contains Json.null

/-- `CombinerHandler._convert_property(prop_schema, required_fields)`.
Mirrors the source exactly, in particular the membership test on
`prop_schema.get("name")` (the `"name"` *key* of the property schema, which
ordinary property schemas do not carry). -/
def convert_property : Nat → Json → List Json → Except Err (PyType × FieldInfo)
  | 0, _, _ => .error .fuel
  | fuel + 1, prop, required_fields =>
    match prop with
    | Json.obj pk =>
      let constraints := build_constraints prop
      let desc := alookup pk "description"
      match resolve_type fuel prop (Json.obj []) with
      | .error e => .error e
      | .ok pt0 =>
        let tc : PyType × List (String × Json) :=
          match constraints with
          | .typeOverride t => (t, [])
          | .kwargs cs =>
            match alookup pk "const" with
            | some c => (PyType.lit c, [])
            | none => (pt0, cs)
        match alookup pk "default" with
        | some d => .ok (tc.1, ⟨desc, tc.2, some d⟩)
        | none =>
          if memJ (alookup pk "name") required_fields then
            .ok (tc.1, ⟨desc, tc.2, none⟩)
          else
            .ok (.optional tc.1, ⟨desc, tc.2, some Json.null⟩)
    | _ =>
      -- Python raises on non-dict property schemas (`"description" in 5`,
      -- or `resolve_type`'s own isinstance guard)
      .error (.pyError "property schema is not a dict")

/-- Convert a property map with `_convert_property(prop)` — i.e. with the
`required_fields` argument left at its default `[]`, exactly as
`handle_all_of` and `handle_any_of` call it. -/
def convertAllProps : Nat → List (String × Json) →
    Except Err (List (String × PyType × FieldInfo))
  | 0, _ => .error .fuel
  | _ + 1, [] => .ok []
  | fuel + 1, (n, p) :: rest =>
      match convert_property fuel p [] with
      | .error e => .error e
      | .ok (t, fi) =>
          match convertAllProps fuel rest with
          | .error e => .error e
          | .ok out => .ok ((n, t, fi) :: out)

/-- The property-merge loop inside one `handle_all_of` branch: a property
already present is merged via `merge_constraints`, otherwise appended. -/
def mergeProps : Nat → List (String × Json) → List (String × Json) →
    List (String × Json)
  | 0, merged, _ => merged
  | _ + 1, merged, [] => merged
  | fuel + 1, merged, (n, p) :: rest =>
      let merged2 :=
        match alookup merged n with
        | some old => setKey merged n (merge_constraints fuel old p)
        | none => setKey merged n p
      mergeProps fuel merged2 rest

/-- The per-schema merge loop of `handle_all_of`: merges each branch's
properties into the accumulated map and accumulates the union of the
`required` lists. -/
def mergeAllOfSchemas : Nat → List Json → List (String × Json) → List Json →
    Except Err (List (String × Json) × List Json)
  | 0, _, _, _ => .error .fuel
  | _ + 1, [], merged, req => .ok (merged, req)
  | fuel + 1, s :: rest, merged, req =>
      match s with
      | Json.obj skvs =>
          let props := (alookup skvs "properties").getD (Json.obj [])
          match props with
          | Json.obj pl =>
              let merged2 := mergeProps fuel merged pl
              -- `required_fields.update(schema.get("required", []))`
              match (alookup skvs "required").getD (Json.arr []) with
              | Json.arr xs =>
                  mergeAllOfSchemas fuel rest merged2
                    (req ++ xs.filter (fun x => !req.contains x))
              | Json.null | Json.num _ | Json.bool _ =>
                  -- `set.update` on a non-iterable raises in Python
                  .error (.pyError "required is not iterable")
              | _ =>
                  -- `set.update` on a str/dict iterates characters/keys; the
                  -- resulting set is dead (never read), so its content is
                  -- immaterial
                  mergeAllOfSchemas fuel rest merged2 req
          | _ => .error (.pyError "properties is not a dict")
      | _ => .error (.combinerError "Invalid schema in allOf")

/-- `CombinerHandler.handle_all_of(schemas, root_schema)`.  Note the
accumulated union of `required` lists is computed but never passed on
(`_convert_property(prop)` is called without `required_fields`), mirroring
the source. -/
def handle_all_of : Nat → Json → Json → Except Err PyType
  | 0, _, _ => .error .fuel
  | fuel + 1, schemas, _root =>
      if !truthy schemas then
        .error (.combinerError "allOf must contain at least one schema")
      else
        match schemas with
        | Json.arr ls =>
            match mergeAllOfSchemas fuel ls [] [] with
            | .error e => .error e
            | .ok (merged, _required_fields) =>
                match convertAllProps fuel merged with
                | .error e => .error e
                | .ok fdefs => .ok (.model "AllOfModel" fdefs true none)
        | Json.str _ | Json.obj _ =>
            -- iterating a str/dict yields non-dict entries
            .error (.combinerError "Invalid schema in allOf")
        | _ => .error (.pyError "allOf value is not iterable")

/-- The per-alternative loop of `handle_any_of`. -/
def anyOfTypes : Nat → List Json → Json → Except Err (List PyType)
  | 0, _, _ => .error .fuel
  | _ + 1, [], _ => .ok []
  | fuel + 1, s :: rest, root =>
      match s with
      | Json.obj skvs =>
          let head : Except Err PyType :=
            if alookup skvs "type" = some (Json.str "object") then
              match (alookup skvs "properties").getD (Json.obj []) with
              | Json.obj pl =>
                  match convertAllProps fuel pl with
                  | .error e => .error e
                  | .ok fdefs => .ok (.model "AnyOfModel" fdefs true none)
              | _ => .error (.pyError "properties is not a dict")
            else resolve_type fuel s root
          match head with
          | .error e => .error e
          | .ok t =>
              match anyOfTypes fuel rest root with
              | .error e => .error e
              | .ok ts => .ok (t :: ts)
      | _ => .error (.combinerError "Invalid schema in anyOf")

/-- `CombinerHandler.handle_any_of(schemas, root_schema)`. -/
def handle_any_of : Nat → Json → Json → Except Err PyType
  | 0, _, _ => .error .fuel
  | fuel + 1, schemas, root =>
      if !truthy schemas then
        .error (.combinerError "anyOf must contain at least one schema")
      else
        match schemas with
        | Json.arr ls =>
            match anyOfTypes fuel ls root with
            | .error e => .error e
            | .ok ts => .ok (.union ts)
        | Json.str _ | Json.obj _ =>
            .error (.combinerError "Invalid schema in anyOf")
        | _ => .error (.pyError "anyOf value is not iterable")

/-- A rough rendering of a JSON scalar for the f-string
`f"Variant_{type_const}"`; only used to name variant models. -/
def jsonToName : Json → String
  | Json.null => "None"
  | Json.bool true => "True"
  | Json.bool false => "False"
  | Json.num n => toString n
  | Json.str s => s
  | Json.arr _ => "list"
  | Json.obj _ => "dict"

/-- `variant_models[type_const] = variant_model` on a dict keyed by the
discriminator constant. -/
def setKeyJson (l : List (Json × PyType)) (k : Json) (v : PyType) :
    List (Json × PyType) :=
  match l with
  | [] => [(k, v)]
  | (k', v') :: rest =>
      if k' = k then (k, v) :: rest else (k', v') :: setKeyJson rest k v

mutual

/-- `CombinerHandler.handle_one_of(schema, root_schema)`: receives the whole
schema node and reads only its `oneOf` list. -/
def handle_one_of : Nat → Json → Json → Except Err PyType
  | 0, _, _ => .error .fuel
  | fuel + 1, schema, root =>
      let schemas := (jget schema "oneOf").getD (Json.arr [])
      if !truthy schemas then
        .error (.combinerError "oneOf must contain at least one schema")
      else
        match schemas with
        | Json.arr ls =>
            match oneOfVariants fuel ls root [] with
            | .error e => .error e
            | .ok variant_models =>
                match variant_models with
                | [(_, m)] => .ok (.rootModel m)
                | _ =>
                    .ok (.rootModel
                      (.discUnion "type" (variant_models.map (fun p => p.2))))
        | Json.str _ | Json.obj _ =>
            .error (.combinerError "Invalid schema in oneOf")
        | _ => .error (.pyError "oneOf value is not iterable")

/-- The per-variant loop of `handle_one_of`, accumulating
`variant_models`. -/
def oneOfVariants : Nat → List Json → Json → List (Json × PyType) →
    Except Err (List (Json × PyType))
  | 0, _, _, _ => .error .fuel
  | _ + 1, [], _, acc => .ok acc
  | fuel + 1, v :: rest, root, acc =>
      match oneOfVariant fuel v root with
      | .error e => .error e
      | .ok (c, m) => oneOfVariants fuel rest root (setKeyJson acc c m)

/-- Processing of one `oneOf` variant: extract the discriminator constant
`properties.type.const` (absent or falsy fails with a combiner error), then
build the variant model's fields. -/
def oneOfVariant : Nat → Json → Json → Except Err (Json × PyType)
  | 0, _, _ => .error .fuel
  | fuel + 1, variant, root =>
      match variant with
      | Json.obj vkvs =>
          match (alookup vkvs "properties").getD (Json.obj []) with
          | Json.obj props =>
              let typeConst : Except Err (Option Json) :=
                match alookup props "type" with
                | none => .ok none
                | some (Json.obj tkvs) => .ok (alookup tkvs "const")
                | some _ =>
                    -- `.get("const")` on a non-dict raises in Python
                    .error (.pyError "'type' property schema is not a dict")
              match typeConst with
              | .error e => .error e
              | .ok co =>
                  -- `if not type_const`: absent or falsy both fail
                  if (match co with | none => true | some c => !truthy c) then
                    .error (.combinerError "Each oneOf variant must have a type const")
                  else
                    match co with
                    | some c =>
                        let required : List Json :=
                          match alookup vkvs "required" with
                          | some (Json.arr xs) => xs
                          -- a non-list `required` raises in Python once a
                          -- membership test runs; not exercised here
                          | _ => []
                        match oneOfFields fuel props required c root with
                        | .error e => .error e
                        | .ok fields =>
                            .ok (c, .model ("Variant_" ++ jsonToName c)
                              fields true none)
                    | none =>
                        .error (.combinerError "Each oneOf variant must have a type const")
          | _ => .error (.pyError "properties is not a dict")
      | _ => .error (.combinerError "Invalid schema in oneOf")

/-- The per-property loop of one `oneOf` variant. -/
def oneOfFields : Nat → List (String × Json) → List Json → Json → Json →
    Except Err (List (String × PyType × FieldInfo))
  | 0, _, _, _, _ => .error .fuel
  | _ + 1, [], _, _, _ => .ok []
  | fuel + 1, (name, pschema) :: rest, required, c, root =>
      let entry : Except Err (PyType × FieldInfo) :=
        if name = "type" then
          .ok (PyType.lit c, ⟨jget pschema "description", [], some c⟩)
        else if (jget pschema "oneOf").isSome then
          match handle_one_of fuel pschema root with
          | .error e => .error e
          | .ok t => .ok (t, ⟨none, [], none⟩)
        else
          match convert_property fuel pschema required with
          | .error e => .error e
          | .ok (ft, fi) =>
              if required.contains (Json.str name) then
                .ok (ft, ⟨jget pschema "description", [], none⟩)
              else .ok (ft, fi)
      match entry with
      | .error e => .error e
      | .ok (t, fi) =>
          match oneOfFields fuel rest required c root with
          | .error e => .error e
          | .ok out => .ok ((name, t, fi) :: out)

end

/-! ## ReferenceResolver (`resolvers.py`, `ReferenceResolver.resolve_ref`)

The Python resolver mutates two pieces of state: the instance-level
in-progress set `self._processing_refs` (add on entry, remove in the
`finally` block) and — through aliasing — the caller-supplied root schema,
whose resolved property entries it rewrites in place.  Both are made
explicit here: `resolve_ref` takes and returns the in-progress list and the
(possibly rewritten) root document, with in-place rewrites modelled as
path-based functional updates of the root tree. -/

/-- `ref.startswith("#")` (character-level, so that proofs can compute). -/
def startsWithHash (s : String) : Bool :=
  match s.data with
  | c :: _ => c = '#'
  | [] => false

/-- Left-to-right non-overlapping replacement of the two-character pattern
`a, b` by `r` (the character-level image of `str.replace` for the two
JSON-Pointer escapes). -/
def replacePair (a b r : Char) : List Char → List Char
  | [] => []
  | [c] => [c]
  | c1 :: c2 :: cs =>
      if c1 = a ∧ c2 = b then r :: replacePair a b r cs
      else c1 :: replacePair a b r (c2 :: cs)

/-- JSON-Pointer unescaping of one path segment
(`part.replace("~1", "/").replace("~0", "~")`). -/
def unescape (p : String) : String :=
  String.mk (replacePair '~' '0' '~' (replacePair '~' '1' '/' p.data))

/-- `str.split(sep)` at the character level. -/
def splitChars (sep : Char) : List Char → List Char → List (List Char)
  | [], acc => [acc.reverse]
  | c :: cs, acc =>
      if c = sep then acc.reverse :: splitChars sep cs []
      else splitChars sep cs (c :: acc)

/-- `ref.split("/")[1:]`, each segment unescaped. -/
def refPath (ref : String) : List String :=
  (((splitChars '/' ref.data []).map String.mk).drop 1).map unescape

/-- The traversal loop `current = current[part]`: a missing dict key raises
the reference error naming the original ref; subscripting a non-dict with a
string raises an uncaught Python `TypeError`. -/
def navigate (ref : String) : Json → List String → Except Err Json
  | cur, [] => .ok cur
  | cur, p :: ps =>
    match cur with
    | Json.obj kvs =>
      match alookup kvs p with
      | some v => navigate ref v ps
      | none => .error (.referenceError ("Invalid reference path: " ++ ref))
    | _ => .error (.pyError "subscripting a non-dict with a string")

/-- Replace the value at a key path inside the root: the pure image of
Python's in-place mutation of a sub-object reached from the root. -/
def setPath : Json → List String → Json → Json
  | _, [], v => v
  | Json.obj kvs, p :: ps, v =>
      match alookup kvs p with
      | some old => Json.obj (setKey kvs p (setPath old ps v))
      | none => Json.obj kvs
  | j, _ :: _, _ => j

mutual

/-- `ReferenceResolver.resolve_ref(ref, schema, root_schema)`.  Returns the
resolution result together with the (possibly rewritten) root and the
in-progress list.  The `schema` argument is never read by the source (it is
only forwarded) but is kept for fidelity. -/
def resolve_ref : Nat → String → Json → Json → List String →
    Except Err Json × Json × List String
  | 0, _, _, root, st => (.error .fuel, root, st)
  | fuel + 1, ref, _schema, root, st =>
    if !startsWithHash ref then
      (.error (.referenceError "Only local references (#/...) are supported"),
       root, st)
    else if ref ∈ st then
      (.error (.referenceError ("Circular reference detected: " ++ ref)),
       root, st)
    else
      -- `self._processing_refs.add(ref)`, then `try: ... finally: remove`
      let st1 := ref :: st
      let path := refPath ref
      let core : Except Err Json × Json × List String :=
        match navigate ref root path with
        | .error e => (.error e, root, st1)
        | .ok cur =>
          match cur with
          | Json.obj kvs =>
            match alookup kvs "$ref" with
            | some (Json.str r2) => resolve_ref fuel r2 cur root st1
            | some _ =>
                -- `.startswith` on a non-string ref raises in Python
                (.error (.pyError "ref is not a string"), root, st1)
            | none =>
              match alookup kvs "properties" with
              | some (Json.obj props) =>
                match resolveProps fuel props path root st1 with
                | (.ok props2, root2, st2) =>
                    (.ok (Json.obj (setKey kvs "properties" (Json.obj props2))),
                     root2, st2)
                | (.error e, root2, st2) => (.error e, root2, st2)
              | some _ =>
                  -- `.items()` on a non-dict raises in Python
                  (.error (.pyError "properties is not a dict"), root, st1)
              | none => (.ok cur, root, st1)
          | _ => (.ok cur, root, st1)
      (core.1, core.2.1, core.2.2.erase ref)

/-- The `isinstance(prop_schema, dict) and "$ref" in prop_schema` test of the
property-rewriting loop: the property's own `$ref` value, when the property
is a dict. -/
def propRef (ps : Json) : Option Json :=
  match ps with
  | Json.obj pkvs => alookup pkvs "$ref"
  | _ => none

/-- The property-rewriting loop of `resolve_ref`: each property that is
itself a dict containing `$ref` is resolved and the entry replaced, both in
the returned property list and — via `setPath` — inside the root. -/
def resolveProps : Nat → List (String × Json) → List String → Json →
    List String → Except Err (List (String × Json)) × Json × List String
  | 0, _, _, root, st => (.error .fuel, root, st)
  | _ + 1, [], _, root, st => (.ok [], root, st)
  | fuel + 1, (n, ps) :: rest, path, root, st =>
    match propRef ps with
    | some (Json.str r2) =>
        match resolve_ref fuel r2 ps root st with
        | (.ok v2, root2, st2) =>
            let root3 := setPath root2 (path ++ ["properties", n]) v2
            match resolveProps fuel rest path root3 st2 with
            | (.ok out, root4, st4) => (.ok ((n, v2) :: out), root4, st4)
            | (.error e, root4, st4) => (.error e, root4, st4)
        | (.error e, root2, st2) => (.error e, root2, st2)
    | some _ =>
        -- `.startswith` on a non-string ref raises in Python
        (.error (.pyError "ref is not a string"), root, st)
    | none =>
        match resolveProps fuel rest path root st with
        | (.ok out, root4, st4) => (.ok ((n, ps) :: out), root4, st4)
        | (.error e, root4, st4) => (.error e, root4, st4)

end

/-- On every exit path (guard failure, navigation error, nested error or
success) `resolve_ref` leaves the in-progress list exactly as it found it,
and so does its property loop. -/
theorem resolveRefState : ∀ fuel,
    (∀ ref schema root st, (resolve_ref fuel ref schema root st).2.2 = st) ∧
    (∀ props path root st, (resolveProps fuel props path root st).2.2 = st) := by
  intro fuel
  induction fuel with
  | zero => exact ⟨fun _ _ _ _ => rfl, fun _ _ _ _ => rfl⟩
  | succ n ih =>
    obtain ⟨ihr, ihp⟩ := ih
    constructor
    · intro ref schema root st
      show (resolve_ref (n + 1) ref schema root st).2.2 = st
      simp only [resolve_ref]
      split
      · rfl
      · split
        · rfl
        · have hcore : ∀ core : Except Err Json × Json × List String,
              core.2.2 = ref :: st →
              (core.1, core.2.1, core.2.2.erase ref).2.2 = st := by
            intro core hc
            simp [hc]
          apply hcore
          split
          · rfl
          · split
            · split
              · exact ihr _ _ _ _
              · rfl
              · split
                · split
                  · rename_i hps
                    exact (congrArg (fun p => p.2.2) hps).symm.trans
                      (ihp _ _ _ _)
                  · rename_i hps
                    exact (congrArg (fun p => p.2.2) hps).symm.trans
                      (ihp _ _ _ _)
                · rfl
                · rfl
            · rfl
    · intro props path root st
      show (resolveProps (n + 1) props path root st).2.2 = st
      match props with
      | [] => rfl
      | (nm, ps) :: rest =>
        simp only [resolveProps]
        split
        · split
          · split
            · rename_i hrr _ _ _ _ hpp
              exact ((congrArg (fun p => p.2.2) hpp).symm.trans
                (ihp _ _ _ _)).trans
                ((congrArg (fun p => p.2.2) hrr).symm.trans (ihr _ _ _ _))
            · rename_i hrr _ _ _ _ hpp
              exact ((congrArg (fun p => p.2.2) hpp).symm.trans
                (ihp _ _ _ _)).trans
                ((congrArg (fun p => p.2.2) hrr).symm.trans (ihr _ _ _ _))
          · rename_i hrr
            exact (congrArg (fun p => p.2.2) hrr).symm.trans (ihr _ _ _ _)
        · rfl
        · split
          · rename_i hpp
            exact (congrArg (fun p => p.2.2) hpp).symm.trans (ihp _ _ _ _)
          · rename_i hpp
            exact (congrArg (fun p => p.2.2) hpp).symm.trans (ihp _ _ _ _)

/-! ## PydanticModelBuilder (`model_builder.py`)

`create_pydantic_model` resolves a top-level `$ref`, then dispatches on the
combinator keywords in the order `allOf`, `anyOf`, `oneOf`, and otherwise
compiles the declared properties into a model.  Since `resolve_ref` rewrites
the root schema in place, the (possibly rewritten) root is threaded through
and returned.  The builder's `ReferenceResolver` instance has an empty
in-progress set whenever the builder calls it (`resolve_ref` restores the
set on every exit path, see `resolveRefState`), so call sites pass `[]`. -/

/-- `as` begins `bs` (helper for the substring test below). -/
def leadsList : List Char → List Char → Bool
  | [], _ => true
  | _ :: _, [] => false
  | a :: as, b :: bs => a = b && leadsList as bs

/-- `pat` occurs contiguously in the character list. -/
def isSubstrChars (pat : List Char) : List Char → Bool
  | [] => pat.isEmpty
  | c :: cs => leadsList pat (c :: cs) || isSubstrChars pat cs

/-- Python's membership test `field_name in required` for the values
`schema.get("required", [])` can take: element membership in a list,
substring test on a string, key membership in a dict; any other value
raises an uncaught `TypeError`. -/
def pyInMem (name : String) (required : Json) : Except Err Bool :=
  match required with
  | Json.arr xs => .ok (xs.contains (Json.str name))
  | Json.str s => .ok (isSubstrChars name.data s.data)
  | Json.obj kvs => .ok ((alookup kvs name).isSome)
  | _ => .error (.pyError "argument is not iterable")

/-- `PydanticModelBuilder._build_field_info(field_schema, required)`. -/
def build_field_info (field_schema : Json) (required : Bool) : FieldInfo :=
  match field_schema with
  | Json.obj kvs =>
      let cs :=
        match build_constraints field_schema with
        | .typeOverride _ => []   -- `pass`: the type resolver handles it
        | .kwargs cs => cs
      { description := alookup kvs "description"
        constraints := cs
        default :=
          match alookup kvs "default" with
          | some d => some d
          | none => if required then none else some Json.null }
  | _ =>
      -- non-dict field schemas raise in Python before this point
      { description := none, constraints := [],
        default := if required then none else some Json.null }

mutual

/-- `PydanticModelBuilder.create_pydantic_model(schema, root_schema)` (with
`root_schema` already defaulted). -/
def create_pydantic_model : Nat → Json → Json → Except Err PyType × Json
  | 0, _, root => (.error .fuel, root)
  | fuel + 1, schema, root =>
    match schema with
    | Json.obj kvs =>
      match alookup kvs "$ref" with
      | some (Json.str r) =>
          let rr := resolve_ref fuel r schema root []
          (match rr.1 with
           | .error e => (.error e, rr.2.1)
           | .ok schema2 => createAfterRef fuel schema2 rr.2.1)
      | some _ => (.error (.pyError "ref is not a string"), root)
      | none => createAfterRef fuel schema root
    | _ => (.error (.pyError "schema node is not a dict"), root)

/-- The part of `create_pydantic_model` after `$ref` handling: combinator
dispatch in the order `allOf`, `anyOf`, `oneOf`, else plain-property
compilation. -/
def createAfterRef : Nat → Json → Json → Except Err PyType × Json
  | 0, _, root => (.error .fuel, root)
  | fuel + 1, schema, root =>
    match schema with
    | Json.obj kvs =>
      match alookup kvs "allOf" with
      | some v => (handle_all_of fuel v root, root)
      | none =>
        match alookup kvs "anyOf" with
        | some v => (handle_any_of fuel v root, root)
        | none =>
          match alookup kvs "oneOf" with
          | some _ => (handle_one_of fuel schema root, root)
          | none =>
            match (match alookup kvs "title" with
                   | none => some "DynamicModel"
                   | some (Json.str s) => some s
                   | some _ => none) with
            | none =>
                -- `create_model` rejects a non-string name
                (.error (.pyError "title is not a string"), root)
            | some name =>
              let description := alookup kvs "description"
              match (alookup kvs "properties").getD (Json.obj []) with
              | Json.obj props =>
                match buildFields fuel props
                    ((alookup kvs "required").getD (Json.arr [])) root with
                | (.error e, root2) => (.error e, root2)
                | (.ok flds, root2) =>
                    (.ok (.model name flds false description), root2)
              | _ => (.error (.pyError "properties is not a dict"), root)
    | _ => (.error (.pyError "schema node is not a dict"), root)

/-- The field loop of `create_pydantic_model`: resolves each property's type
(`_get_field_type` first), then evaluates `field_name in required` with
Python's membership semantics and builds the `FieldInfo`, threading the root
(reference resolution may rewrite it). -/
def buildFields : Nat → List (String × Json) → Json → Json →
    Except Err (List (String × PyType × FieldInfo)) × Json
  | 0, _, _, root => (.error .fuel, root)
  | _ + 1, [], _, root => (.ok [], root)
  | fuel + 1, (name, fs) :: rest, required, root =>
    match get_field_type fuel fs root with
    | (.error e, root2) => (.error e, root2)
    | (.ok ft, root2) =>
      match pyInMem name required with
      | .error e => (.error e, root2)
      | .ok isReq =>
        let fi := build_field_info fs isReq
        match buildFields fuel rest required root2 with
        | (.error e, root3) => (.error e, root3)
        | (.ok out, root3) => (.ok ((name, ft, fi) :: out), root3)

/-- `PydanticModelBuilder._get_field_type(field_schema, root_schema)`. -/
def get_field_type : Nat → Json → Json → Except Err PyType × Json
  | 0, _, root => (.error .fuel, root)
  | fuel + 1, fs, root =>
    match fs with
    | Json.obj kvs =>
      match alookup kvs "$ref" with
      | some (Json.str r) =>
          let rr := resolve_ref fuel r fs root []
          (match rr.1 with
           | .error e => (.error e, rr.2.1)
           | .ok fs2 => getFieldTypeAfterRef fuel fs2 rr.2.1)
      | some _ => (.error (.pyError "ref is not a string"), root)
      | none => getFieldTypeAfterRef fuel fs root
    | _ => (.error (.pyError "field schema is not a dict"), root)

/-- The part of `_get_field_type` after `$ref` handling: combinators first,
then the nested-object check (`type == "object" and "properties" in
field_schema` recurses into `create_pydantic_model`), else the type
resolver. -/
def getFieldTypeAfterRef : Nat → Json → Json → Except Err PyType × Json
  | 0, _, root => (.error .fuel, root)
  | fuel + 1, fs, root =>
    match fs with
    | Json.obj kvs =>
      match alookup kvs "allOf" with
      | some v => (handle_all_of fuel v root, root)
      | none =>
        match alookup kvs "anyOf" with
        | some v => (handle_any_of fuel v root, root)
        | none =>
          match alookup kvs "oneOf" with
          | some _ => (handle_one_of fuel fs root, root)
          | none =>
            if alookup kvs "type" = some (Json.str "object") ∧
                (alookup kvs "properties").isSome then
              create_pydantic_model fuel fs root
            else
              (resolve_type fuel fs root, root)
    | _ => (.error (.pyError "field schema is not a dict"), root)

end

/-- The package-level entry point `create_model(schema)` /
`compile(schema, root_schema = schema)`. -/
def compileSchema (fuel : Nat) (schema : Json) : Except Err PyType × Json :=
  create_pydantic_model fuel schema schema

/-- One step of a reference chain: the target of `a` in the root is a
fragment whose `$ref` is `b` (and `b` passes the local-reference guard). -/
def links (root : Json) (a b : String) : Prop :=
  startsWithHash b = true ∧
  ∃ kvs, navigate a root (refPath a) = .ok (Json.obj kvs) ∧
    alookup kvs "$ref" = some (Json.str b)

/-- `a` reaches `b` through the successive `$ref` targets listed in the
middle. -/
def linksChain (root : Json) : String → List String → String → Prop
  | a, [], b => links root a b
  | a, x :: xs, b => links root a x ∧ linksChain root x xs b

/-- The graph of the property-rewriting loop of `resolve_ref` on successful
runs: entry by entry, a property that is not a `$ref` dict is kept, and a
property that is a `$ref` dict is resolved by `resolve_ref` and replaced by
the resolved fragment, the root being rewritten at the property's path
before the loop continues (fuel decreases once per entry, mirroring
`resolveProps`). -/
inductive PropsResolve (path : List String) :
    Nat → List (String × Json) → Json → List String →
    List (String × Json) → Json → List String → Prop
  | nil {m : Nat} {root : Json} {st : List String} :
      PropsResolve path (m + 1) [] root st [] root st
  | keep {m : Nat} {n : String} {ps : Json} {rest : List (String × Json)}
      {root : Json} {st : List String} {out : List (String × Json)}
      {root2 : Json} {st2 : List String} :
      propRef ps = none →
      PropsResolve path m rest root st out root2 st2 →
      PropsResolve path (m + 1) ((n, ps) :: rest) root st
        ((n, ps) :: out) root2 st2
  | repl {m : Nat} {n : String} {ps : Json} {r2 : String} {v2 : Json}
      {root root1 : Json} {st1 : List String} {rest : List (String × Json)}
      {st : List String} {out : List (String × Json)} {root2 : Json}
      {st2 : List String} :
      propRef ps = some (Json.str r2) →
      resolve_ref m r2 ps root st = (.ok v2, root1, st1) →
      PropsResolve path m rest
        (setPath root1 (path ++ ["properties", n]) v2) st1 out root2 st2 →
      PropsResolve path (m + 1) ((n, ps) :: rest) root st
        ((n, v2) :: out) root2 st2

/-! ## Claim theorems -/

/-- C1 (code bug, failing evaluation): for `allOf` over two branches with
disjoint `required` lists (`a` required by the first, `b` by the second),
`handle_all_of` produces a model in which *both* fields are optional with
implicit default `null` — the accumulated required union is never passed to
`_convert_property` — so constructing an instance omitting both required
fields succeeds and yields `null` for each, contradicting the claim that
omission fails validation. -/
theorem C1_allOf_required_dropped :
    handle_all_of 10
      (Json.arr
        [Json.obj [("properties", Json.obj [("a", Json.obj [("type", Json.str "string")])]),
                   ("required", Json.arr [Json.str "a"])],
         Json.obj [("properties", Json.obj [("b", Json.obj [("type", Json.str "integer")])]),
                   ("required", Json.arr [Json.str "b"])]])
      (Json.obj [])
    = .ok (.model "AllOfModel"
        [("a", .optional .pstr, ⟨none, [], some Json.null⟩),
         ("b", .optional .pint, ⟨none, [], some Json.null⟩)] true none) ∧
    constructModel 10
      (.model "AllOfModel"
        [("a", .optional .pstr, ⟨none, [], some Json.null⟩),
         ("b", .optional .pint, ⟨none, [], some Json.null⟩)] true none) []
    = .ok [("a", Json.null), ("b", Json.null)] :=
  ⟨rfl, rfl⟩

/-- C2 (counterexample): a schema whose `type` is the unrecognized name
`"frobnicate"`, with no `const`, `enum` or `format`, does *not* fail with a
type error — `resolve_type` falls back to plain `str`
(`type_map.get(schema_type, str)`). -/
theorem C2_unrecognized_type_falls_back_to_str :
    resolve_type 2 (Json.obj [("type", Json.str "frobnicate")]) (Json.obj [])
      = .ok .pstr := rfl

/-- C2 (amended): a fragment with no `type` key at all (and no `const` or
`enum`) fails with the type error "Schema must specify a type"; a fragment
whose `type` is an unrecognized non-empty type name (and no `const` or
`enum`) resolves to plain `str` instead of failing. -/
theorem C2_missing_type_fails_unrecognized_is_str :
    ∀ (fuel : Nat) (root : Json) (kvs : List (String × Json)),
    alookup kvs "const" = none →
    alookup kvs "enum" = none →
    ((alookup kvs "type" = none →
      resolve_type (fuel + 1) (Json.obj kvs) root
        = .error (.typeError "Schema must specify a type")) ∧
     (∀ t, alookup kvs "type" = some (Json.str t) →
      t ∉ ["", "null", "array", "string", "integer", "number", "boolean",
           "object"] →
      resolve_type (fuel + 1) (Json.obj kvs) root = .ok .pstr)) := by
  intro fuel root kvs hconst henum
  constructor
  · intro htype
    simp [resolve_type, hconst, henum, htype]
  · intro t htype hmem
    simp only [List.mem_cons, List.mem_singleton] at hmem
    push_neg at hmem
    obtain ⟨h0, hnull, harr, hstr, hint, hnum, hbool, hobj⟩ := hmem
    have htruthy : truthy (Json.str t) = true := by
      simp only [truthy]
      cases ht : t.isEmpty with
      | true => exact absurd ((String.isEmpty_iff t).mp ht) h0
      | false => rfl
    simp [resolve_type, hconst, henum, htype, htruthy, typeMap,
      harr, hstr, hint, hnum, hbool, hobj, hnull]

/-- C2 (witness for the amended theorem): the empty schema fails with
"Schema must specify a type", and `type: "frobnicate"` resolves to `str`. -/
theorem C2_missing_type_fails_unrecognized_is_str_witness :
    resolve_type 2 (Json.obj []) (Json.obj [])
      = .error (.typeError "Schema must specify a type") ∧
    resolve_type 2 (Json.obj [("type", Json.str "frobnicate")]) (Json.obj [])
      = .ok .pstr :=
  ⟨(C2_missing_type_fails_unrecognized_is_str 1 (Json.obj []) [] rfl rfl).1 rfl,
   (C2_missing_type_fails_unrecognized_is_str 1 (Json.obj [])
      [("type", Json.str "frobnicate")] rfl rfl).2 "frobnicate" rfl
      (by decide)⟩

/-- C7 (counterexample): for `type: ["string"]` — a type list where removing
`"null"` leaves exactly one type name — `resolve_type` does *not* return the
nullable form of `str`; because `"null"` is not in the list, it fails with
"Unsupported type combination". -/
theorem C7_single_type_list_without_null_fails :
    resolve_type 2 (Json.obj [("type", Json.arr [Json.str "string"])])
      (Json.obj [])
      = .error (.typeError "Unsupported type combination") := rfl

/-- C7 (amended): for a `type` list, `resolve_type` returns the nullable
form only when the list *contains* `"null"` and exactly one entry remains
after removing the `"null"` entries (the result being that entry's own
resolution, wrapped in Optional); every other list — including a singleton
without `"null"` — fails with "Unsupported type combination". -/
theorem C7_nullable_type_lists :
    ∀ (fuel : Nat) (root : Json) (kvs : List (String × Json))
      (types : List Json),
    alookup kvs "const" = none →
    alookup kvs "type" = some (Json.arr types) →
    ((∀ t0, (Json.str "null") ∈ types →
      types.filter (fun t => t ≠ Json.str "null") = [t0] →
      resolve_type (fuel + 1) (Json.obj kvs) root =
        (match resolve_type fuel (Json.obj [("type", t0)]) root with
         | .ok u => .ok (.optional u)
         | .error e => .error e)) ∧
     (¬ ((Json.str "null") ∈ types ∧
         (types.filter (fun t => t ≠ Json.str "null")).length = 1) →
      resolve_type (fuel + 1) (Json.obj kvs) root =
        .error (.typeError "Unsupported type combination"))) := by
  intro fuel root kvs types hconst htype
  constructor
  · intro t0 hnull hfil
    simp only [ne_eq, decide_not] at hfil
    simp [resolve_type, hconst, htype, hnull, hfil]
  · intro hbad
    by_cases hnull : (Json.str "null") ∈ types
    · have hlen : (types.filter (fun t => t ≠ Json.str "null")).length ≠ 1 :=
        fun h => hbad ⟨hnull, h⟩
      rcases hfl : types.filter (fun t => t ≠ Json.str "null") with _ | ⟨t0, rest⟩
      · simp only [ne_eq, decide_not] at hfl
        simp [resolve_type, hconst, htype, hnull, hfl]
      · rcases rest with _ | ⟨t1, rest2⟩
        · rw [hfl] at hlen; simp at hlen
        · simp only [ne_eq, decide_not] at hfl
          simp [resolve_type, hconst, htype, hnull, hfl]
    · simp [resolve_type, hconst, htype, hnull]

/-- C7 (witness for the amended theorem): `["integer", "null"]` resolves to
`Optional[int]`; `["string", "integer"]` fails. -/
theorem C7_nullable_type_lists_witness :
    resolve_type 2
      (Json.obj [("type", Json.arr [Json.str "integer", Json.str "null"])])
      (Json.obj [])
      = .ok (.optional .pint) ∧
    resolve_type 2
      (Json.obj [("type", Json.arr [Json.str "string", Json.str "integer"])])
      (Json.obj [])
      = .error (.typeError "Unsupported type combination") :=
  ⟨((C7_nullable_type_lists 1 (Json.obj [])
      [("type", Json.arr [Json.str "integer", Json.str "null"])]
      [Json.str "integer", Json.str "null"] rfl rfl).1
      (Json.str "integer") (by decide) (by decide)).trans rfl,
   (C7_nullable_type_lists 1 (Json.obj [])
      [("type", Json.arr [Json.str "string", Json.str "integer"])]
      [Json.str "string", Json.str "integer"] rfl rfl).2 (by decide)⟩

/-- C10: a property schema with `type: "object"` and no `properties` key (and
no ref/combinator/const/enum) is typed by `_get_field_type` as the generic
`dict` placeholder — no nested model is compiled — and instance validation
accepts any mapping for such a field. -/
theorem C10_object_without_properties_is_dict :
    ∀ (n : Nat) (root : Json) (kvs : List (String × Json)),
    alookup kvs "$ref" = none →
    alookup kvs "allOf" = none →
    alookup kvs "anyOf" = none →
    alookup kvs "oneOf" = none →
    alookup kvs "const" = none →
    alookup kvs "enum" = none →
    alookup kvs "type" = some (Json.str "object") →
    alookup kvs "properties" = none →
    get_field_type (n + 3) (Json.obj kvs) root = (.ok .pdict, root) ∧
    ∀ (m : Nat) (obkvs : List (String × Json)),
      typeCheck (m + 1) .pdict (Json.obj obkvs) = true := by
  intro n root kvs href hall hany hone hconst henum htype hprops
  constructor
  · have hoe : "object".isEmpty = false := rfl
    simp [get_field_type, getFieldTypeAfterRef, resolve_type, href, hall,
      hany, hone, hconst, henum, htype, hprops, truthy, typeMap, hoe]
  · intro m obkvs
    simp [typeCheck, Json.isObj]

/-- C10 (witness): `{"type": "object"}` gets field type `dict`, and an
arbitrary mapping type-checks against it. -/
theorem C10_object_without_properties_is_dict_witness :
    get_field_type 3 (Json.obj [("type", Json.str "object")]) (Json.obj [])
      = (.ok .pdict, Json.obj []) ∧
    typeCheck 1 .pdict (Json.obj [("anything", Json.num 5)]) = true :=
  ⟨(C10_object_without_properties_is_dict 0 (Json.obj [])
      [("type", Json.str "object")] rfl rfl rfl rfl rfl rfl rfl rfl).1,
   (C10_object_without_properties_is_dict 0 (Json.obj [])
      [("type", Json.str "object")] rfl rfl rfl rfl rfl rfl rfl rfl).2
      0 [("anything", Json.num 5)]⟩

/-- C4: on every invocation and every exit path (unsupported-ref guard,
circular guard, navigation error, nested error, or success), `resolve_ref`
returns the in-progress set exactly as it found it, so a subsequent
independent resolution of the same ref is not blocked by leaked state. -/
theorem C4_inprogress_set_restored :
    ∀ (fuel : Nat) (ref : String) (schema root : Json) (st : List String),
    (resolve_ref fuel ref schema root st).2.2 = st :=
  fun fuel => (resolveRefState fuel).1

/-- One unfolding of `resolve_ref` on a target that is itself a `$ref`
fragment, when the nested resolution fails: the error propagates and the
`finally` block pops the stack entry. -/
theorem resolve_ref_chain_step :
    ∀ (fuel : Nat) (r r2 : String) (schema root : Json) (st : List String)
      (kvs : List (String × Json)) (e : Err),
    startsWithHash r = true →
    r ∉ st →
    navigate r root (refPath r) = .ok (Json.obj kvs) →
    alookup kvs "$ref" = some (Json.str r2) →
    resolve_ref fuel r2 (Json.obj kvs) root (r :: st)
      = (.error e, root, r :: st) →
    resolve_ref (fuel + 1) r schema root st = (.error e, root, st) := by
  intro fuel r r2 schema root st kvs e hhash hnotin hnav href hinner
  simp [resolve_ref, hhash, hnotin, hnav, href, hinner,
    List.erase_cons_head]

/-- Following a `$ref` chain whose end re-enters a reference already on the
stack fails with the circular-reference error naming that reference, leaving
root and stack as received. -/
theorem resolve_ref_reentry_chain :
    ∀ (rest : List String) (fuel : Nat) (r r0 : String) (schema root : Json)
      (st : List String),
    r0 ∈ st →
    startsWithHash r = true →
    r ∉ st →
    (∀ y ∈ rest, y ∉ st) →
    (r :: rest).Nodup →
    linksChain root r rest r0 →
    resolve_ref (fuel + rest.length + 2) r schema root st
      = (.error (.referenceError ("Circular reference detected: " ++ r0)),
         root, st) := by
  intro rest
  induction rest with
  | nil =>
    intro fuel r r0 schema root st hr0 hhash hnotin _ _ hlink
    obtain ⟨hhash0, kvs, hnav, href⟩ := hlink
    have hinner : resolve_ref (fuel + 1) r0 (Json.obj kvs) root (r :: st)
        = (.error (.referenceError ("Circular reference detected: " ++ r0)),
           root, r :: st) := by
      simp [resolve_ref, hhash0, hr0]
    exact resolve_ref_chain_step (fuel + 1) r r0 schema root st kvs _
      hhash hnotin hnav href hinner
  | cons x xs ih =>
    intro fuel r r0 schema root st hr0 hhash hnotin hrest hnodup hlink
    obtain ⟨⟨hhashx, kvs, hnav, href⟩, hchain⟩ := hlink
    have hheadnot : r ∉ x :: xs := (List.nodup_cons.mp hnodup).1
    have hxnot : x ∉ r :: st := by
      intro hx
      rcases List.mem_cons.mp hx with h | h
      · exact hheadnot (by rw [← h]; exact List.mem_cons_self x xs)
      · exact hrest x (List.mem_cons_self x xs) h
    have hrest' : ∀ y ∈ xs, y ∉ r :: st := by
      intro y hy hmem
      rcases List.mem_cons.mp hmem with h | h
      · exact hheadnot (List.mem_cons_of_mem x (h ▸ hy))
      · exact hrest y (List.mem_cons_of_mem x hy) h
    have hr0' : r0 ∈ r :: st := List.mem_cons_of_mem _ hr0
    have hinner := ih fuel x r0 (Json.obj kvs) root (r :: st) hr0' hhashx
      hxnot hrest' ((List.nodup_cons.mp hnodup).2) hchain
    exact resolve_ref_chain_step (fuel + xs.length + 2) r x schema root st
      kvs _ hhash hnotin hnav href hinner

/-- Properties without a `$ref` pass through the rewriting loop untouched:
processing `props1 ++ rest` where every entry of `props1` is ref-free first
copies `props1`, leaving root and in-progress set for `rest`. -/
theorem resolveProps_skip :
    ∀ (props1 : List (String × Json)) (m : Nat) (rest : List (String × Json))
      (path : List String) (root : Json) (st : List String),
    (∀ p ∈ props1, propRef p.2 = none) →
    resolveProps (m + props1.length) (props1 ++ rest) path root st =
      (match resolveProps m rest path root st with
       | (.ok out, r, s) => (.ok (props1 ++ out), r, s)
       | (.error e, r, s) => (.error e, r, s)) := by
  intro props1
  induction props1 with
  | nil =>
    intro m rest path root st _
    rcases hr : resolveProps m rest path root st with ⟨res, r, s⟩
    cases res <;> simp [hr]
  | cons p props1' ih =>
    intro m rest path root st h
    obtain ⟨nm, ps⟩ := p
    have hp : propRef ps = none := h (nm, ps) (List.mem_cons_self _ _)
    show resolveProps ((m + props1'.length) + 1)
        ((nm, ps) :: (props1' ++ rest)) path root st = _
    simp only [resolveProps, hp]
    rw [ih m rest path root st (fun q hq => h q (List.mem_cons_of_mem _ hq))]
    rcases hr : resolveProps m rest path root st with ⟨res, r, s⟩
    cases res <;> simp

/-- A wholly ref-free property list passes through unchanged. -/
theorem resolveProps_refFree :
    ∀ (props : List (String × Json)) (m : Nat) (path : List String)
      (root : Json) (st : List String),
    (∀ p ∈ props, propRef p.2 = none) →
    resolveProps (m + 1 + props.length) props path root st
      = (.ok props, root, st) := by
  intro props m path root st h
  have hs := resolveProps_skip props (m + 1) [] path root st h
  rw [List.append_nil] at hs
  rw [hs]
  simp [resolveProps]

/-- C3: whenever resolution of a reference transitively re-enters that same
reference while it is still being resolved on the same call stack — either
through a chain of `$ref` targets of any length leading back to it
(`A → A`, `A → B → A`, …), or through the eager property-rewriting loop
whose entry's `$ref` leads back to it (directly or through such a chain) —
`resolve_ref` fails with the circular-reference error naming the reference,
returns no fragment, and leaves root and in-progress set unchanged. -/
theorem C3_transitive_circular_reference_fails :
    (∀ (rest : List String) (fuel : Nat) (r : String) (schema root : Json)
       (st : List String),
     startsWithHash r = true →
     r ∉ st →
     (∀ y ∈ rest, y ∉ st) →
     (r :: rest).Nodup →
     linksChain root r rest r →
     resolve_ref (fuel + rest.length + 3) r schema root st
       = (.error (.referenceError ("Circular reference detected: " ++ r)),
          root, st)) ∧
    (∀ (rest : List String) (fuel : Nat) (r r1 : String) (schema root : Json)
       (st : List String) (kvs props1 pkvs props2 : List (String × Json))
       (pname : String),
     startsWithHash r = true →
     r ∉ st →
     navigate r root (refPath r) = .ok (Json.obj kvs) →
     alookup kvs "$ref" = none →
     alookup kvs "properties"
       = some (Json.obj (props1 ++ (pname, Json.obj pkvs) :: props2)) →
     (∀ p ∈ props1, propRef p.2 = none) →
     alookup pkvs "$ref" = some (Json.str r1) →
     (r1 = r ∨
      (startsWithHash r1 = true ∧ r1 ∉ r :: st ∧
       (∀ y ∈ rest, y ∉ r :: st) ∧ (r1 :: rest).Nodup ∧
       linksChain root r1 rest r)) →
     resolve_ref (fuel + rest.length + 2 + 1 + props1.length + 1)
         r schema root st
       = (.error (.referenceError ("Circular reference detected: " ++ r)),
          root, st)) := by
  constructor
  · intro rest fuel r schema root st hhash hnotin hrest hnodup hchain
    cases rest with
    | nil =>
      obtain ⟨hhash0, kvs, hnav, href⟩ := hchain
      have hinner : resolve_ref (fuel + 2) r (Json.obj kvs) root (r :: st)
          = (.error (.referenceError ("Circular reference detected: " ++ r)),
             root, r :: st) := by
        simp [resolve_ref, hhash0, List.mem_cons]
      exact resolve_ref_chain_step (fuel + 2) r r schema root st kvs _
        hhash hnotin hnav href hinner
    | cons x xs =>
      obtain ⟨⟨hhashx, kvs, hnav, href⟩, hchain2⟩ := hchain
      have hheadnot : r ∉ x :: xs := (List.nodup_cons.mp hnodup).1
      have hxnot : x ∉ r :: st := by
        intro hx
        rcases List.mem_cons.mp hx with h | h
        · exact hheadnot (by rw [← h]; exact List.mem_cons_self x xs)
        · exact hrest x (List.mem_cons_self x xs) h
      have hrest2 : ∀ y ∈ xs, y ∉ r :: st := by
        intro y hy hmem
        rcases List.mem_cons.mp hmem with h | h
        · exact hheadnot (List.mem_cons_of_mem x (h ▸ hy))
        · exact hrest y (List.mem_cons_of_mem x hy) h
      have hinner := resolve_ref_reentry_chain xs (fuel + 1) x r
        (Json.obj kvs) root (r :: st) (List.mem_cons_self r st) hhashx
        hxnot hrest2 ((List.nodup_cons.mp hnodup).2) hchain2
      simp only [List.length_cons]
      rw [(by omega :
        fuel + (xs.length + 1) + 3 = (fuel + 1) + xs.length + 2 + 1)]
      exact resolve_ref_chain_step ((fuel + 1) + xs.length + 2) r x schema
        root st kvs _ hhash hnotin hnav href hinner
  · intro rest fuel r r1 schema root st kvs props1 pkvs props2 pname
      hhash hnotin hnav hkref hkprops h1free hpref hloop
    have hinner : resolve_ref (fuel + rest.length + 2) r1 (Json.obj pkvs)
        root (r :: st)
        = (.error (.referenceError ("Circular reference detected: " ++ r)),
           root, r :: st) := by
      rcases hloop with hEq | ⟨hhash1, h1notin, hrest, hnodup, hchain⟩
      · subst hEq
        simp [resolve_ref, hhash, List.mem_cons]
      · exact resolve_ref_reentry_chain rest fuel r1 r (Json.obj pkvs)
          root (r :: st) (List.mem_cons_self r st) hhash1 h1notin hrest
          hnodup hchain
    have hentry : resolveProps (fuel + rest.length + 2 + 1)
        ((pname, Json.obj pkvs) :: props2) (refPath r) root (r :: st)
        = (.error (.referenceError ("Circular reference detected: " ++ r)),
           root, r :: st) := by
      simp only [resolveProps, propRef, hpref, hinner]
    have hskip := resolveProps_skip props1 (fuel + rest.length + 2 + 1)
        ((pname, Json.obj pkvs) :: props2) (refPath r) root (r :: st) h1free
    rw [hentry] at hskip
    simp [resolve_ref, hhash, hnotin, hnav, hkref, hkprops, hskip,
      List.erase_cons_head]

/-- C3 (witness): the two-step cycle `#/definitions/A → #/definitions/B →
#/definitions/A` fails with the circular-reference error naming
`#/definitions/A`, and so does `#/definitions/A` whose target's property
`self` is `{"$ref": "#/definitions/A"}` (re-entry through the eager
property loop); in both cases root and in-progress set are unchanged. -/
theorem C3_transitive_circular_reference_fails_witness :
    resolve_ref 4 "#/definitions/A"
      (Json.obj [("definitions", Json.obj
        [("A", Json.obj [("$ref", Json.str "#/definitions/B")]),
         ("B", Json.obj [("$ref", Json.str "#/definitions/A")])])])
      (Json.obj [("definitions", Json.obj
        [("A", Json.obj [("$ref", Json.str "#/definitions/B")]),
         ("B", Json.obj [("$ref", Json.str "#/definitions/A")])])])
      []
      = (.error (.referenceError
          "Circular reference detected: #/definitions/A"),
         Json.obj [("definitions", Json.obj
           [("A", Json.obj [("$ref", Json.str "#/definitions/B")]),
            ("B", Json.obj [("$ref", Json.str "#/definitions/A")])])],
         []) ∧
    resolve_ref 4 "#/definitions/A"
      (Json.obj [("definitions", Json.obj
        [("A", Json.obj [("properties", Json.obj
            [("self", Json.obj [("$ref", Json.str "#/definitions/A")])])])])])
      (Json.obj [("definitions", Json.obj
        [("A", Json.obj [("properties", Json.obj
            [("self", Json.obj [("$ref", Json.str "#/definitions/A")])])])])])
      []
      = (.error (.referenceError
          "Circular reference detected: #/definitions/A"),
         Json.obj [("definitions", Json.obj
           [("A", Json.obj [("properties", Json.obj
               [("self", Json.obj
                   [("$ref", Json.str "#/definitions/A")])])])])],
         []) :=
  ⟨C3_transitive_circular_reference_fails.1 ["#/definitions/B"] 0
      "#/definitions/A"
      (Json.obj [("definitions", Json.obj
        [("A", Json.obj [("$ref", Json.str "#/definitions/B")]),
         ("B", Json.obj [("$ref", Json.str "#/definitions/A")])])])
      (Json.obj [("definitions", Json.obj
        [("A", Json.obj [("$ref", Json.str "#/definitions/B")]),
         ("B", Json.obj [("$ref", Json.str "#/definitions/A")])])])
      [] rfl (by simp) (by simp) (by decide)
      ⟨⟨rfl, [("$ref", Json.str "#/definitions/B")], rfl, rfl⟩,
       rfl, [("$ref", Json.str "#/definitions/A")], rfl, rfl⟩,
   C3_transitive_circular_reference_fails.2 [] 0
      "#/definitions/A" "#/definitions/A"
      (Json.obj [("definitions", Json.obj
        [("A", Json.obj [("properties", Json.obj
            [("self", Json.obj [("$ref", Json.str "#/definitions/A")])])])])])
      (Json.obj [("definitions", Json.obj
        [("A", Json.obj [("properties", Json.obj
            [("self", Json.obj [("$ref", Json.str "#/definitions/A")])])])])])
      []
      [("properties", Json.obj
          [("self", Json.obj [("$ref", Json.str "#/definitions/A")])])]
      [] [("$ref", Json.str "#/definitions/A")] [] "self"
      rfl (by simp) rfl rfl rfl (by simp) rfl (Or.inl rfl)⟩

/-- A `PropsResolve` derivation is exactly a successful run of the
property-rewriting loop `resolveProps` at the same fuel. -/
theorem PropsResolve_run :
    ∀ {path : List String} {m : Nat} {props : List (String × Json)}
      {root : Json} {st : List String} {out : List (String × Json)}
      {root2 : Json} {st2 : List String},
    PropsResolve path m props root st out root2 st2 →
    resolveProps m props path root st = (.ok out, root2, st2) := by
  intro path m props root st out root2 st2 hder
  induction hder with
  | nil => rfl
  | keep hp hrest ih => simp only [resolveProps, hp, ih]
  | repl hp hres hrest ih => simp only [resolveProps, hp, hres, ih]

/-- Pointwise reading of a `PropsResolve` derivation: property names
survive, entries without a `$ref` are kept verbatim, and every entry that
is itself a `$ref` dict ends up replaced by a fragment returned by
`resolve_ref` for that `$ref`. -/
theorem PropsResolve_pointwise :
    ∀ {path : List String} {m : Nat} {props : List (String × Json)}
      {root : Json} {st : List String} {out : List (String × Json)}
      {root2 : Json} {st2 : List String},
    PropsResolve path m props root st out root2 st2 →
    out.length = props.length ∧
    ∀ i (hi : i < props.length) (ho : i < out.length),
      (out.get ⟨i, ho⟩).1 = (props.get ⟨i, hi⟩).1 ∧
      (propRef (props.get ⟨i, hi⟩).2 = none →
        (out.get ⟨i, ho⟩).2 = (props.get ⟨i, hi⟩).2) ∧
      (∀ r2, propRef (props.get ⟨i, hi⟩).2 = some (Json.str r2) →
        ∃ (g : Nat) (rA rB : Json) (sA sB : List String),
          resolve_ref g r2 (props.get ⟨i, hi⟩).2 rA sA
            = (.ok ((out.get ⟨i, ho⟩).2), rB, sB)) := by
  intro path m props root st out root2 st2 hder
  induction hder with
  | nil =>
    refine ⟨rfl, ?_⟩
    intro i hi _
    exact absurd hi (by simp)
  | keep hp hrest ih =>
    rename_i m n ps rest roo stt outt roo2 stt2
    obtain ⟨ihlen, ihget⟩ := ih
    refine ⟨by simp [ihlen], ?_⟩
    intro i hi ho
    cases i with
    | zero =>
      refine ⟨rfl, fun _ => rfl, ?_⟩
      intro r2 hr2
      have hr : propRef ps = some (Json.str r2) := hr2
      rw [hp] at hr
      exact Option.noConfusion hr
    | succ j =>
      have hj : j < rest.length := by
        simp only [List.length_cons] at hi; omega
      have hjo : j < outt.length := by
        simp only [List.length_cons] at ho; omega
      exact ihget j hj hjo
  | repl hp hres hrest ih =>
    rename_i m n ps r2 v2 roo roo1 stt1 rest stt outt roo2 stt2
    obtain ⟨ihlen, ihget⟩ := ih
    refine ⟨by simp [ihlen], ?_⟩
    intro i hi ho
    cases i with
    | zero =>
      refine ⟨rfl, ?_, ?_⟩
      · intro hnone
        have hr : propRef ps = none := hnone
        rw [hp] at hr
        exact Option.noConfusion hr
      · intro r3 hr3
        have hr : propRef ps = some (Json.str r3) := hr3
        rw [hp] at hr
        injection hr with hA
        injection hA with hB
        subst hB
        exact ⟨m, roo, roo1, stt, stt1, hres⟩
    | succ j =>
      have hj : j < rest.length := by
        simp only [List.length_cons] at hi; omega
      have hjo : j < outt.length := by
        simp only [List.length_cons] at ho; omega
      exact ihget j hj hjo

/-- C5: when `resolve_ref` resolves a target object (no `$ref` of its own)
whose `properties` run through the rewriting loop successfully (a
`PropsResolve` derivation), the resolver returns the rewritten property
list inside the fragment together with the rewritten root — resolution
mutates the traversed structure inside the caller-supplied root — and,
pointwise, every property entry that is itself a `$ref` dict (however many
there are) is replaced by a fragment `resolve_ref` returned for its `$ref`,
while ref-free entries are kept verbatim. -/
theorem C5_every_ref_property_rewritten :
    (∀ (m : Nat) (ref : String) (schema root : Json) (st : List String)
       (kvs props out : List (String × Json)) (root2 : Json)
       (st2 : List String),
     startsWithHash ref = true →
     ref ∉ st →
     navigate ref root (refPath ref) = .ok (Json.obj kvs) →
     alookup kvs "$ref" = none →
     alookup kvs "properties" = some (Json.obj props) →
     PropsResolve (refPath ref) m props root (ref :: st) out root2 st2 →
     resolve_ref (m + 1) ref schema root st
       = (.ok (Json.obj (setKey kvs "properties" (Json.obj out))),
          root2, st)) ∧
    (∀ (path : List String) (m : Nat) (props : List (String × Json))
       (root : Json) (st : List String) (out : List (String × Json))
       (root2 : Json) (st2 : List String),
     PropsResolve path m props root st out root2 st2 →
     out.length = props.length ∧
     ∀ i (hi : i < props.length) (ho : i < out.length),
       (out.get ⟨i, ho⟩).1 = (props.get ⟨i, hi⟩).1 ∧
       (propRef (props.get ⟨i, hi⟩).2 = none →
         (out.get ⟨i, ho⟩).2 = (props.get ⟨i, hi⟩).2) ∧
       (∀ r2, propRef (props.get ⟨i, hi⟩).2 = some (Json.str r2) →
         ∃ (g : Nat) (rA rB : Json) (sA sB : List String),
           resolve_ref g r2 (props.get ⟨i, hi⟩).2 rA sA
             = (.ok ((out.get ⟨i, ho⟩).2), rB, sB))) := by
  constructor
  · intro m ref schema root st kvs props out root2 st2
      hhash hmem hnav hkref hkprops hder
    have hrun := PropsResolve_run hder
    have hst : st2 = ref :: st := by
      have h := (resolveRefState m).2 props (refPath ref) root (ref :: st)
      rw [hrun] at h
      exact h
    subst hst
    simp [resolve_ref, hhash, hmem, hnav, hkref, hkprops, hrun,
      List.erase_cons_head]
  · intro path m props root st out root2 st2 hder
    exact PropsResolve_pointwise hder

/-- C5 (witness): resolving `#/definitions/X` whose target has *two* `$ref`
properties `p` (to `#/definitions/Y`) and `q` (to `#/definitions/Z`)
replaces both entries with their resolved fragments in the returned
fragment *and* inside the root, which is observably mutated. -/
theorem C5_every_ref_property_rewritten_witness :
    resolve_ref 4 "#/definitions/X"
      (Json.obj [("definitions", Json.obj
        [("X", Json.obj [("properties", Json.obj
            [("p", Json.obj [("$ref", Json.str "#/definitions/Y")]),
             ("q", Json.obj [("$ref", Json.str "#/definitions/Z")])])]),
         ("Y", Json.obj [("type", Json.str "string")]),
         ("Z", Json.obj [("type", Json.str "integer")])])])
      (Json.obj [("definitions", Json.obj
        [("X", Json.obj [("properties", Json.obj
            [("p", Json.obj [("$ref", Json.str "#/definitions/Y")]),
             ("q", Json.obj [("$ref", Json.str "#/definitions/Z")])])]),
         ("Y", Json.obj [("type", Json.str "string")]),
         ("Z", Json.obj [("type", Json.str "integer")])])])
      []
      = (.ok (Json.obj [("properties", Json.obj
           [("p", Json.obj [("type", Json.str "string")]),
            ("q", Json.obj [("type", Json.str "integer")])])]),
         Json.obj [("definitions", Json.obj
           [("X", Json.obj [("properties", Json.obj
               [("p", Json.obj [("type", Json.str "string")]),
                ("q", Json.obj [("type", Json.str "integer")])])]),
            ("Y", Json.obj [("type", Json.str "string")]),
            ("Z", Json.obj [("type", Json.str "integer")])])],
         []) ∧
    Json.obj [("definitions", Json.obj
      [("X", Json.obj [("properties", Json.obj
          [("p", Json.obj [("type", Json.str "string")]),
           ("q", Json.obj [("type", Json.str "integer")])])]),
       ("Y", Json.obj [("type", Json.str "string")]),
       ("Z", Json.obj [("type", Json.str "integer")])])]
      ≠
    Json.obj [("definitions", Json.obj
      [("X", Json.obj [("properties", Json.obj
          [("p", Json.obj [("$ref", Json.str "#/definitions/Y")]),
           ("q", Json.obj [("$ref", Json.str "#/definitions/Z")])])]),
       ("Y", Json.obj [("type", Json.str "string")]),
       ("Z", Json.obj [("type", Json.str "integer")])])] := by
  have h1 : resolve_ref 2 "#/definitions/Y"
      (Json.obj [("$ref", Json.str "#/definitions/Y")])
      (Json.obj [("definitions", Json.obj
        [("X", Json.obj [("properties", Json.obj
            [("p", Json.obj [("$ref", Json.str "#/definitions/Y")]),
             ("q", Json.obj [("$ref", Json.str "#/definitions/Z")])])]),
         ("Y", Json.obj [("type", Json.str "string")]),
         ("Z", Json.obj [("type", Json.str "integer")])])])
      ["#/definitions/X"]
      = (.ok (Json.obj [("type", Json.str "string")]),
         Json.obj [("definitions", Json.obj
           [("X", Json.obj [("properties", Json.obj
               [("p", Json.obj [("$ref", Json.str "#/definitions/Y")]),
                ("q", Json.obj [("$ref", Json.str "#/definitions/Z")])])]),
            ("Y", Json.obj [("type", Json.str "string")]),
            ("Z", Json.obj [("type", Json.str "integer")])])],
         ["#/definitions/X"]) := rfl
  have h2 : resolve_ref 1 "#/definitions/Z"
      (Json.obj [("$ref", Json.str "#/definitions/Z")])
      (Json.obj [("definitions", Json.obj
        [("X", Json.obj [("properties", Json.obj
            [("p", Json.obj [("type", Json.str "string")]),
             ("q", Json.obj [("$ref", Json.str "#/definitions/Z")])])]),
         ("Y", Json.obj [("type", Json.str "string")]),
         ("Z", Json.obj [("type", Json.str "integer")])])])
      ["#/definitions/X"]
      = (.ok (Json.obj [("type", Json.str "integer")]),
         Json.obj [("definitions", Json.obj
           [("X", Json.obj [("properties", Json.obj
               [("p", Json.obj [("type", Json.str "string")]),
                ("q", Json.obj [("$ref", Json.str "#/definitions/Z")])])]),
            ("Y", Json.obj [("type", Json.str "string")]),
            ("Z", Json.obj [("type", Json.str "integer")])])],
         ["#/definitions/X"]) := rfl
  have hder : PropsResolve ["definitions", "X"] 3
      [("p", Json.obj [("$ref", Json.str "#/definitions/Y")]),
       ("q", Json.obj [("$ref", Json.str "#/definitions/Z")])]
      (Json.obj [("definitions", Json.obj
        [("X", Json.obj [("properties", Json.obj
            [("p", Json.obj [("$ref", Json.str "#/definitions/Y")]),
             ("q", Json.obj [("$ref", Json.str "#/definitions/Z")])])]),
         ("Y", Json.obj [("type", Json.str "string")]),
         ("Z", Json.obj [("type", Json.str "integer")])])])
      ["#/definitions/X"]
      [("p", Json.obj [("type", Json.str "string")]),
       ("q", Json.obj [("type", Json.str "integer")])]
      (Json.obj [("definitions", Json.obj
        [("X", Json.obj [("properties", Json.obj
            [("p", Json.obj [("type", Json.str "string")]),
             ("q", Json.obj [("type", Json.str "integer")])])]),
         ("Y", Json.obj [("type", Json.str "string")]),
         ("Z", Json.obj [("type", Json.str "integer")])])])
      ["#/definitions/X"] :=
    PropsResolve.repl rfl h1 (PropsResolve.repl rfl h2 PropsResolve.nil)
  exact ⟨(C5_every_ref_property_rewritten.1 3 "#/definitions/X"
      (Json.obj [("definitions", Json.obj
        [("X", Json.obj [("properties", Json.obj
            [("p", Json.obj [("$ref", Json.str "#/definitions/Y")]),
             ("q", Json.obj [("$ref", Json.str "#/definitions/Z")])])]),
         ("Y", Json.obj [("type", Json.str "string")]),
         ("Z", Json.obj [("type", Json.str "integer")])])])
      (Json.obj [("definitions", Json.obj
        [("X", Json.obj [("properties", Json.obj
            [("p", Json.obj [("$ref", Json.str "#/definitions/Y")]),
             ("q", Json.obj [("$ref", Json.str "#/definitions/Z")])])]),
         ("Y", Json.obj [("type", Json.str "string")]),
         ("Z", Json.obj [("type", Json.str "integer")])])])
      []
      [("properties", Json.obj
          [("p", Json.obj [("$ref", Json.str "#/definitions/Y")]),
           ("q", Json.obj [("$ref", Json.str "#/definitions/Z")])])]
      [("p", Json.obj [("$ref", Json.str "#/definitions/Y")]),
       ("q", Json.obj [("$ref", Json.str "#/definitions/Z")])]
      [("p", Json.obj [("type", Json.str "string")]),
       ("q", Json.obj [("type", Json.str "integer")])]
      (Json.obj [("definitions", Json.obj
        [("X", Json.obj [("properties", Json.obj
            [("p", Json.obj [("type", Json.str "string")]),
             ("q", Json.obj [("type", Json.str "integer")])])]),
         ("Y", Json.obj [("type", Json.str "string")]),
         ("Z", Json.obj [("type", Json.str "integer")])])])
      ["#/definitions/X"]
      rfl (by simp) rfl rfl rfl hder).trans rfl,
    by decide⟩

/-- The discriminator constant `properties.type.const` of a `oneOf` variant,
when it can be read off cleanly (`none` covers both an absent constant and
the malformed shapes on which the code raises before reading one). -/
def variantConst (v : Json) : Option Json :=
  match v with
  | Json.obj vkvs =>
    match (alookup vkvs "properties").getD (Json.obj []) with
    | Json.obj props =>
      match alookup props "type" with
      | none => none
      | some (Json.obj tkvs) => alookup tkvs "const"
      | some _ => none
    | _ => none
  | _ => none

/-- A variant that is not a dict, or whose `properties.type.const` is
absent, makes `oneOfVariant` fail. -/
theorem oneOfVariant_bad :
    ∀ (fuel : Nat) (v root : Json),
    (Json.isObj v = false ∨ variantConst v = none) →
    ∃ e, oneOfVariant fuel v root = .error e := by
  intro fuel v root hbad
  match fuel with
  | 0 => exact ⟨.fuel, rfl⟩
  | fuel + 1 =>
    match v with
    | Json.null | Json.bool _ | Json.num _ | Json.str _ | Json.arr _ =>
        exact ⟨.combinerError "Invalid schema in oneOf", rfl⟩
    | Json.obj vkvs =>
      have hc : variantConst (Json.obj vkvs) = none := by
        rcases hbad with h | h
        · simp [Json.isObj] at h
        · exact h
      simp only [oneOfVariant]
      rcases hp : (alookup vkvs "properties").getD (Json.obj []) with
        _ | _ | _ | _ | _ | props
      · exact ⟨.pyError "properties is not a dict", by simp [hp]⟩
      · exact ⟨.pyError "properties is not a dict", by simp [hp]⟩
      · exact ⟨.pyError "properties is not a dict", by simp [hp]⟩
      · exact ⟨.pyError "properties is not a dict", by simp [hp]⟩
      · exact ⟨.pyError "properties is not a dict", by simp [hp]⟩
      · rcases ht : alookup props "type" with _ | tj
        · exact ⟨.combinerError "Each oneOf variant must have a type const",
            by simp [hp, ht]⟩
        · match tj with
          | Json.obj tkvs =>
            have hcc : alookup tkvs "const" = none := by
              simpa [variantConst, hp, ht] using hc
            exact ⟨.combinerError "Each oneOf variant must have a type const",
              by simp [hp, ht, hcc]⟩
          | Json.null | Json.bool _ | Json.num _ | Json.str _ | Json.arr _ =>
            exact ⟨.pyError "'type' property schema is not a dict",
              by simp [hp, ht]⟩

/-- If any variant of the list is bad in the sense of `oneOfVariant_bad`,
the variant loop fails with some error. -/
theorem oneOfVariants_bad :
    ∀ (vs : List Json) (fuel : Nat) (root : Json) (acc : List (Json × PyType))
      (v : Json),
    v ∈ vs →
    (Json.isObj v = false ∨ variantConst v = none) →
    ∃ e, oneOfVariants fuel vs root acc = .error e := by
  intro vs
  induction vs with
  | nil => intro fuel root acc v hv; exact absurd hv (List.not_mem_nil v)
  | cons w rest ih =>
    intro fuel root acc v hv hbad
    match fuel with
    | 0 => exact ⟨.fuel, rfl⟩
    | fuel + 1 =>
      simp only [oneOfVariants]
      rcases List.mem_cons.mp hv with he | hm
      · subst he
        obtain ⟨e, hE⟩ := oneOfVariant_bad fuel v root hbad
        exact ⟨e, by rw [hE]⟩
      · rcases hw : oneOfVariant fuel w root with e | cm
        · exact ⟨e, rfl⟩
        · obtain ⟨c, mo⟩ := cm
          obtain ⟨e, hE⟩ := ih fuel root (setKeyJson acc c mo) v hm hbad
          exact ⟨e, hE⟩

/-- C8: for every `oneOf` whose variant list contains a variant without a
`properties.type.const` discriminator constant (or a non-dict variant),
`handle_one_of` fails with an error and produces no model — for every
fuel, so no amount of computation yields a model. -/
theorem C8_missing_discriminator_fails :
    ∀ (fuel : Nat) (schema root : Json) (vs : List Json) (v : Json),
    jget schema "oneOf" = some (Json.arr vs) →
    v ∈ vs →
    (Json.isObj v = false ∨ variantConst v = none) →
    ∃ e, handle_one_of fuel schema root = .error e := by
  intro fuel schema root vs v hone hv hbad
  match fuel with
  | 0 => exact ⟨.fuel, rfl⟩
  | fuel + 1 =>
    match vs, hv with
    | w :: rest, hv =>
      have htr : truthy (Json.arr (w :: rest)) = true := by simp [truthy]
      obtain ⟨e, hE⟩ := oneOfVariants_bad (w :: rest) fuel root [] v hv hbad
      refine ⟨e, ?_⟩
      simp [handle_one_of, hone, htr, hE]

/-- C8 (witness): a `oneOf` with a well-formed `cat` variant and a second
variant whose `type` property lacks `const` fails. -/
theorem C8_missing_discriminator_fails_witness :
    ∃ e, handle_one_of 10
      (Json.obj [("oneOf", Json.arr
        [Json.obj [("properties", Json.obj
            [("type", Json.obj [("const", Json.str "cat")]),
             ("name", Json.obj [("type", Json.str "string")])])],
         Json.obj [("properties", Json.obj
            [("type", Json.obj [("description", Json.str "missing const")])])]])])
      (Json.obj []) = .error e :=
  C8_missing_discriminator_fails 10
    (Json.obj [("oneOf", Json.arr
      [Json.obj [("properties", Json.obj
          [("type", Json.obj [("const", Json.str "cat")]),
           ("name", Json.obj [("type", Json.str "string")])])],
       Json.obj [("properties", Json.obj
          [("type", Json.obj [("description", Json.str "missing const")])])]])])
    (Json.obj [])
    [Json.obj [("properties", Json.obj
        [("type", Json.obj [("const", Json.str "cat")]),
         ("name", Json.obj [("type", Json.str "string")])])],
     Json.obj [("properties", Json.obj
        [("type", Json.obj [("description", Json.str "missing const")])])]]
    (Json.obj [("properties", Json.obj
        [("type", Json.obj [("description", Json.str "missing const")])])])
    rfl (by simp) (Or.inr rfl)

/-- The default slot of a Field Descriptor is determined by exactly one of
three mutually exclusive cases: an explicit schema `default`, required
status (no default at all), or the implicit `null` for optional fields. -/
theorem build_field_info_default :
    ∀ (fs : Json) (req : Bool),
    (build_field_info fs req).default =
      (match jget fs "default" with
       | some dv => some dv
       | none => if req then none else some Json.null) := by
  intro fs req
  cases fs <;> rfl

/-- Shape of a successful `buildFields` run: one field per property, in
order, with name preserved and metadata given by `_build_field_info` of the
property schema and Python's `field_name in required` membership test. -/
theorem buildFields_get :
    ∀ (props : List (String × Json)) (fuel : Nat) (req : Json)
      (root : Json) (flds : List (String × PyType × FieldInfo))
      (root2 : Json),
    buildFields fuel props req root = (.ok flds, root2) →
    flds.length = props.length ∧
    ∀ (i : Nat) (hi : i < props.length) (hf : i < flds.length),
      (flds.get ⟨i, hf⟩).1 = (props.get ⟨i, hi⟩).1 ∧
      ∀ b, pyInMem (props.get ⟨i, hi⟩).1 req = .ok b →
        (flds.get ⟨i, hf⟩).2.2 =
          build_field_info (props.get ⟨i, hi⟩).2 b := by
  intro props
  induction props with
  | nil =>
    intro fuel req root flds root2 h
    match fuel with
    | 0 => exact absurd (congrArg Prod.fst h) (by simp [buildFields])
    | fuel + 1 =>
      have h1 := congrArg Prod.fst h
      simp only [buildFields] at h1
      have h2 : ([] : List (String × PyType × FieldInfo)) = flds := by
        simpa using h1
      subst h2
      exact ⟨rfl, fun i hi _ => absurd hi (by simp)⟩
  | cons p rest ih =>
    intro fuel req root flds root2 h
    obtain ⟨name, fs⟩ := p
    match fuel with
    | 0 => exact absurd (congrArg Prod.fst h) (by simp [buildFields])
    | fuel + 1 =>
      rcases hg : get_field_type fuel fs root with ⟨gres, root2'⟩
      rcases gres with e | ft
      · simp only [buildFields, hg] at h
        exact absurd (congrArg Prod.fst h) (by simp)
      · rcases hm : pyInMem name req with e | isReq
        · simp only [buildFields, hg, hm] at h
          exact absurd (congrArg Prod.fst h) (by simp)
        · rcases hb : buildFields fuel rest req root2' with ⟨bres, root3⟩
          rcases bres with e | out
          · simp only [buildFields, hg, hm, hb] at h
            exact absurd (congrArg Prod.fst h) (by simp)
          · simp only [buildFields, hg, hm, hb] at h
            have hfl : (name, ft, build_field_info fs isReq) :: out
                = flds := by
              simpa using congrArg Prod.fst h
            subst hfl
            obtain ⟨hlen, hrec⟩ := ih fuel req root2' out root3 hb
            refine ⟨by simp [hlen], ?_⟩
            intro i hi hf
            cases i with
            | zero =>
              refine ⟨rfl, fun b hpb => ?_⟩
              have hpb2 : pyInMem name req = Except.ok b := hpb
              rw [hm] at hpb2
              injection hpb2 with hb2
              rw [← hb2]
              rfl
            | succ j =>
              have hj : j < rest.length := by simpa using hi
              have hjf : j < out.length := by simpa using hf
              exact hrec j hj hjf

/-- Shape of a successful `constructFields` run: one output entry per field,
in order, with the field's name; a field absent from the input whose default
is `null` comes out bound to `null`. -/
theorem constructFields_get :
    ∀ (fs : List (String × PyType × FieldInfo)) (m : Nat)
      (input out : List (String × Json)),
    constructFields m fs input = .ok out →
    out.length = fs.length ∧
    ∀ (i : Nat) (hi : i < fs.length) (ho : i < out.length),
      (out.get ⟨i, ho⟩).1 = (fs.get ⟨i, hi⟩).1 ∧
      (alookup input (fs.get ⟨i, hi⟩).1 = none →
       (fs.get ⟨i, hi⟩).2.2.default = some Json.null →
       out.get ⟨i, ho⟩ = ((fs.get ⟨i, hi⟩).1, Json.null)) := by
  intro fs
  induction fs with
  | nil =>
    intro m input out h
    match m with
    | 0 => exact absurd h (by simp [constructFields])
    | m + 1 =>
      simp only [constructFields] at h
      have h2 : ([] : List (String × Json)) = out := by simpa using h
      subst h2
      exact ⟨rfl, fun i hi _ => absurd hi (by simp)⟩
  | cons f rest ih =>
    intro m input out h
    obtain ⟨n, t, fi⟩ := f
    match m with
    | 0 => exact absurd h (by simp [constructFields])
    | m + 1 =>
      rcases hl : alookup input n with _ | v
      · rcases hd : fi.default with _ | d
        · simp only [constructFields, hl, hd] at h
          exact absurd h (by simp)
        · rcases hc : constructFields m rest input with e | out'
          · simp only [constructFields, hl, hd, hc] at h
            exact absurd h (by simp)
          · simp only [constructFields, hl, hd, hc] at h
            have hoeq : (n, d) :: out' = out := by simpa using h
            subst hoeq
            obtain ⟨hlen, hrec⟩ := ih m input out' hc
            refine ⟨by simp [hlen], ?_⟩
            intro i hi hoo
            cases i with
            | zero =>
              exact ⟨rfl, fun _ hdef => by
                have hdef2 : fi.default = some Json.null := hdef
                rw [hd] at hdef2
                injection hdef2 with hdv
                subst hdv
                rfl⟩
            | succ j =>
              have hj : j < rest.length := by simpa using hi
              have hjo : j < out'.length := by simpa using hoo
              exact hrec j hj hjo
      · cases htc : typeCheck m t v with
        | false =>
          simp only [constructFields, hl, htc] at h
          exact absurd h (by simp)
        | true =>
          rcases hc : constructFields m rest input with e | out'
          · simp only [constructFields, hl, htc, hc] at h
            exact absurd h (by simp)
          · simp only [constructFields, hl, htc, hc] at h
            have hoeq : (n, v) :: out' = out := by simpa using h
            subst hoeq
            obtain ⟨hlen, hrec⟩ := ih m input out' hc
            refine ⟨by simp [hlen], ?_⟩
            intro i hi hoo
            cases i with
            | zero =>
              exact ⟨rfl, fun habs _ => by
                have habs2 : alookup input n = none := habs
                rw [hl] at habs2
                cases habs2⟩
            | succ j =>
              have hj : j < rest.length := by simpa using hi
              have hjo : j < out'.length := by simpa using hoo
              exact hrec j hj hjo

/-- C9: in a plain object schema (no ref/combinators), a property absent
from `required` and without an explicit `default` compiles to a field whose
descriptor carries the implicit default `null`; constructing an instance
that omits the field succeeds (given the rest validates) and binds it to
`null`; and every field descriptor's default slot is decided by exactly one
of {explicit default, required (no default), implicit null}. -/
theorem C9_optional_fields_default_null :
    ∀ (n : Nat) (kvs : List (String × Json)) (root : Json)
      (props : List (String × Json)) (name : String) (ps : Json)
      (i : Nat) (hi : i < props.length) (ttl : String)
      (flds : List (String × PyType × FieldInfo)) (ef : Bool)
      (d : Option Json) (root2 : Json),
    alookup kvs "$ref" = none →
    alookup kvs "allOf" = none →
    alookup kvs "anyOf" = none →
    alookup kvs "oneOf" = none →
    (alookup kvs "properties").getD (Json.obj []) = Json.obj props →
    props.get ⟨i, hi⟩ = (name, ps) →
    pyInMem name ((alookup kvs "required").getD (Json.arr [])) = .ok false →
    jget ps "default" = none →
    create_pydantic_model (n + 2) (Json.obj kvs) root
      = (.ok (.model ttl flds ef d), root2) →
    (∃ hf : i < flds.length,
       (flds.get ⟨i, hf⟩).1 = name ∧
       (flds.get ⟨i, hf⟩).2.2 = build_field_info ps false ∧
       (build_field_info ps false).default = some Json.null) ∧
    (∀ (m : Nat) (input out : List (String × Json)),
       constructCore m flds ef input = .ok out →
       alookup input name = none →
       ∃ ho : i < out.length, out.get ⟨i, ho⟩ = (name, Json.null)) ∧
    (∀ (fs : Json) (req : Bool),
       (build_field_info fs req).default =
         (match jget fs "default" with
          | some dv => some dv
          | none => if req then none else some Json.null)) := by
  intro n kvs root props name ps i hi ttl flds ef d root2
    href hall hany hone hprops hget hreq hdef hcreate
  simp only [create_pydantic_model, href] at hcreate
  simp only [createAfterRef, hall, hany, hone, hprops] at hcreate
  rcases ht : (match alookup kvs "title" with
              | none => some "DynamicModel"
              | some (Json.str s) => some s
              | some _ => none) with _ | nm
  · rw [ht] at hcreate
    exact absurd (congrArg Prod.fst hcreate) (by simp)
  · rw [ht] at hcreate
    rcases hb : buildFields n props
        ((alookup kvs "required").getD (Json.arr [])) root with ⟨bres, root2'⟩
    rcases bres with e | flds'
    · rw [hb] at hcreate
      exact absurd (congrArg Prod.fst hcreate) (by simp)
    · rw [hb] at hcreate
      have h1 := congrArg Prod.fst hcreate
      simp only [Prod.fst] at h1
      injection h1 with h1'
      obtain ⟨hnm, hfl, hef, hd2⟩ := PyType.model.inj h1'
      rw [hfl] at hb
      obtain ⟨hlen, hrec⟩ := buildFields_get props n
        ((alookup kvs "required").getD (Json.arr [])) root flds root2' hb
      have hf : i < flds.length := by rw [hlen]; exact hi
      have hname : (flds.get ⟨i, hf⟩).1 = name := by
        have := (hrec i hi hf).1
        rw [hget] at this
        exact this
      have hinfo : (flds.get ⟨i, hf⟩).2.2 = build_field_info ps false := by
        have hmem : pyInMem (props.get ⟨i, hi⟩).1
            ((alookup kvs "required").getD (Json.arr [])) = .ok false := by
          rw [hget]
          exact hreq
        have := (hrec i hi hf).2 false hmem
        rw [hget] at this
        exact this
      have hdefault : (build_field_info ps false).default = some Json.null := by
        rw [build_field_info_default ps false, hdef]
        rfl
      refine ⟨⟨hf, hname, hinfo, hdefault⟩, ?_, ?_⟩
      · intro m input out hco hnone
        match m, hco with
        | m + 1, hco =>
          simp only [constructCore] at hco
          split at hco
          · cases hco
          · obtain ⟨holen, horec⟩ := constructFields_get flds m input out hco
            have ho : i < out.length := by rw [holen]; exact hf
            refine ⟨ho, ?_⟩
            have h2 := (horec i hf ho).2
            rw [hname] at h2
            exact h2 hnone (by rw [hinfo]; exact hdefault)
      · exact build_field_info_default

/-- C9 (witness): in `{"properties": {"name": str, "age": int},
"required": ["name"]}` the optional `age` field defaults to `null`:
constructing with only `name` succeeds and binds `age` to `null`. -/
theorem C9_optional_fields_default_null_witness :
    ∃ ho : 1 < ([("name", Json.str "Ada"), ("age", Json.null)] :
        List (String × Json)).length,
      ([("name", Json.str "Ada"), ("age", Json.null)] :
        List (String × Json)).get ⟨1, ho⟩ = ("age", Json.null) :=
  (C9_optional_fields_default_null 6
    [("properties", Json.obj
        [("name", Json.obj [("type", Json.str "string")]),
         ("age", Json.obj [("type", Json.str "integer")])]),
     ("required", Json.arr [Json.str "name"])]
    (Json.obj [("properties", Json.obj
        [("name", Json.obj [("type", Json.str "string")]),
         ("age", Json.obj [("type", Json.str "integer")])]),
      ("required", Json.arr [Json.str "name"])])
    [("name", Json.obj [("type", Json.str "string")]),
     ("age", Json.obj [("type", Json.str "integer")])]
    "age" (Json.obj [("type", Json.str "integer")])
    1 (by decide) "DynamicModel"
    [("name", PyType.pstr, ⟨none, [], none⟩),
     ("age", PyType.pint, ⟨none, [], some Json.null⟩)]
    false none
    (Json.obj [("properties", Json.obj
        [("name", Json.obj [("type", Json.str "string")]),
         ("age", Json.obj [("type", Json.str "integer")])]),
      ("required", Json.arr [Json.str "name"])])
    rfl rfl rfl rfl rfl rfl rfl rfl rfl).2.1
    5 [("name", Json.str "Ada")]
    [("name", Json.str "Ada"), ("age", Json.null)] rfl rfl

/-- Setting one key of a dict leaves lookups of other keys unchanged. -/
theorem alookup_setKey_ne :
    ∀ (kvs : List (String × Json)) (k : String) (v : Json) (k' : String),
    k' ≠ k → alookup (setKey kvs k v) k' = alookup kvs k' := by
  intro kvs k v k' hne
  induction kvs with
  | nil =>
    simp only [setKey, alookup]
    rw [if_neg (fun h => hne h.symm)]
  | cons p rest ih =>
    obtain ⟨pk, pv⟩ := p
    by_cases hpk : pk = k
    · subst hpk
      simp only [setKey, if_pos rfl, alookup]
      rw [if_neg (fun h => hne h.symm), if_neg (fun h => hne h.symm)]
    · simp only [setKey, if_neg hpk, alookup]
      by_cases hpk' : pk = k'
      · simp [hpk']
      · simp [hpk', ih]

/-- `handle_one_of` reads only the `oneOf` entry of the schema node it
receives. -/
theorem handle_one_of_congr :
    ∀ (fuel : Nat) (s1 s2 root : Json),
    jget s1 "oneOf" = jget s2 "oneOf" →
    handle_one_of fuel s1 root = handle_one_of fuel s2 root := by
  intro fuel s1 s2 root h
  match fuel with
  | 0 => rfl
  | n + 1 => simp only [handle_one_of, h]

/-- A fragment returned by `resolve_ref` never carries a top-level `$ref`:
a dict target with `$ref` is resolved recursively, and property rewriting
never introduces one. -/
theorem resolve_ref_noTopRef :
    ∀ (fuel : Nat) (ref : String) (schema root : Json) (st : List String)
      (kvs : List (String × Json)),
    (resolve_ref fuel ref schema root st).1 = .ok (Json.obj kvs) →
    alookup kvs "$ref" = none := by
  intro fuel
  induction fuel with
  | zero =>
    intro ref schema root st kvs h
    simp [resolve_ref] at h
  | succ n ih =>
    intro ref schema root st kvs h
    simp only [resolve_ref] at h
    split at h
    · simp at h
    · split at h
      · simp at h
      · split at h
        · simp at h
        · split at h
          · split at h
            · exact ih _ _ _ _ _ h
            · simp at h
            · rename_i hrefnone
              split at h
              · split at h
                · simp at h
                  rw [← h]
                  rw [alookup_setKey_ne _ _ _ _ (by decide)]
                  exact hrefnone
                · simp at h
              · simp at h
              · simp at h
                rw [← h]
                exact hrefnone
          · rename_i hnotobj
            simp at h
            exact absurd h (hnotobj kvs)

/-- C6: `create_pydantic_model` resolves a `$ref` before anything else (the
result is the compilation of the resolved fragment against the possibly
rewritten root, regardless of what else the node carries), then checks the
combinators in the order `allOf`, `anyOf`, `oneOf`, returning exactly the
Combiner Handler's result for the first one present; and when a combinator
is present, the node's own `title`/`description`/`properties`/`required`
are ignored (two nodes agreeing on the `$ref`/combinator keys compile
identically). -/
theorem C6_ref_then_combinators_in_order :
    (∀ (n : Nat) (kvs : List (String × Json)) (root root' f : Json)
       (r : String) (st' : List String),
       alookup kvs "$ref" = some (Json.str r) →
       resolve_ref n r (Json.obj kvs) root [] = (.ok f, root', st') →
       create_pydantic_model (n + 1) (Json.obj kvs) root
         = create_pydantic_model (n + 1) f root') ∧
    (∀ (n : Nat) (kvs : List (String × Json)) (root v : Json),
       alookup kvs "$ref" = none →
       alookup kvs "allOf" = some v →
       create_pydantic_model (n + 2) (Json.obj kvs) root
         = (handle_all_of n v root, root)) ∧
    (∀ (n : Nat) (kvs : List (String × Json)) (root v : Json),
       alookup kvs "$ref" = none →
       alookup kvs "allOf" = none →
       alookup kvs "anyOf" = some v →
       create_pydantic_model (n + 2) (Json.obj kvs) root
         = (handle_any_of n v root, root)) ∧
    (∀ (n : Nat) (kvs : List (String × Json)) (root v : Json),
       alookup kvs "$ref" = none →
       alookup kvs "allOf" = none →
       alookup kvs "anyOf" = none →
       alookup kvs "oneOf" = some v →
       create_pydantic_model (n + 2) (Json.obj kvs) root
         = (handle_one_of n (Json.obj kvs) root, root)) ∧
    (∀ (n : Nat) (kvs1 kvs2 : List (String × Json)) (root : Json),
       alookup kvs1 "$ref" = none → alookup kvs2 "$ref" = none →
       alookup kvs1 "allOf" = alookup kvs2 "allOf" →
       alookup kvs1 "anyOf" = alookup kvs2 "anyOf" →
       alookup kvs1 "oneOf" = alookup kvs2 "oneOf" →
       (alookup kvs1 "allOf" ≠ none ∨ alookup kvs1 "anyOf" ≠ none ∨
        alookup kvs1 "oneOf" ≠ none) →
       create_pydantic_model (n + 1) (Json.obj kvs1) root
         = create_pydantic_model (n + 1) (Json.obj kvs2) root) := by
  refine ⟨?_, ?_, ?_, ?_, ?_⟩
  · intro n kvs root root' f r st' href hres
    match n, hres with
    | 0, hres =>
      exact absurd (congrArg Prod.fst hres) (by simp [resolve_ref])
    | n + 1, hres =>
      have hL : create_pydantic_model (n + 1 + 1) (Json.obj kvs) root
          = createAfterRef (n + 1) f root' := by
        simp only [create_pydantic_model, href, hres]
      rcases f with _ | _ | _ | _ | _ | fkvs
      case obj =>
        have hfr : alookup fkvs "$ref" = none :=
          resolve_ref_noTopRef (n + 1) r (Json.obj kvs) root [] fkvs
            (by rw [hres])
        have hR : create_pydantic_model (n + 1 + 1) (Json.obj fkvs) root'
            = createAfterRef (n + 1) (Json.obj fkvs) root' := by
          simp only [create_pydantic_model, hfr]
        rw [hL, hR]
      all_goals
        rw [hL]; simp [createAfterRef, create_pydantic_model]
  · intro n kvs root v href hall
    simp only [create_pydantic_model, href, createAfterRef, hall]
  · intro n kvs root v href hall hany
    simp only [create_pydantic_model, href, createAfterRef, hall, hany]
  · intro n kvs root v href hall hany hone
    simp only [create_pydantic_model, href, createAfterRef, hall, hany, hone]
  · intro n kvs1 kvs2 root h1 h2 hA hB hC hpresent
    match n with
    | 0 =>
      simp only [create_pydantic_model, h1, h2]
      rfl
    | n + 1 =>
      rcases hA1 : alookup kvs1 "allOf" with _ | v
      · rcases hB1 : alookup kvs1 "anyOf" with _ | v
        · rcases hC1 : alookup kvs1 "oneOf" with _ | v
          · rcases hpresent with hp | hp | hp <;> simp_all
          · have hC2 : alookup kvs2 "oneOf" = some v := by rw [← hC, hC1]
            have hA2 : alookup kvs2 "allOf" = none := by rw [← hA, hA1]
            have hB2 : alookup kvs2 "anyOf" = none := by rw [← hB, hB1]
            simp only [create_pydantic_model, h1, h2, createAfterRef,
              hA1, hA2, hB1, hB2, hC1, hC2]
            rw [handle_one_of_congr n (Json.obj kvs1) (Json.obj kvs2) root
              (by simp [jget, hC1, hC2])]
        · have hB2 : alookup kvs2 "anyOf" = some v := by rw [← hB, hB1]
          have hA2 : alookup kvs2 "allOf" = none := by rw [← hA, hA1]
          simp only [create_pydantic_model, h1, h2, createAfterRef,
            hA1, hA2, hB1, hB2]
      · have hA2 : alookup kvs2 "allOf" = some v := by rw [← hA, hA1]
        simp only [create_pydantic_model, h1, h2, createAfterRef, hA1, hA2]

/-- C6 (witness): a node carrying both `$ref` and `allOf` compiles exactly
as its resolved ref target (ref first); nodes with `allOf`/`anyOf`/`oneOf`
yield exactly the corresponding handler's result, with extra
`title`/`properties`/`required` keys ignored. -/
theorem C6_ref_then_combinators_in_order_witness :
    (create_pydantic_model 5
      (Json.obj [("$ref", Json.str "#/definitions/T"),
                 ("allOf", Json.arr [Json.obj []])])
      (Json.obj [("definitions",
        Json.obj [("T", Json.obj [("title", Json.str "RefTarget")])])])
      = create_pydantic_model 5
          (Json.obj [("title", Json.str "RefTarget")])
          (Json.obj [("definitions",
            Json.obj [("T", Json.obj [("title", Json.str "RefTarget")])])])) ∧
    (create_pydantic_model 6
      (Json.obj [("allOf", Json.arr [Json.obj [("properties", Json.obj [])]]),
                 ("title", Json.str "Ignored")])
      (Json.obj [])
      = (handle_all_of 4 (Json.arr [Json.obj [("properties", Json.obj [])]])
          (Json.obj []), Json.obj [])) ∧
    (create_pydantic_model 6
      (Json.obj [("anyOf", Json.arr [Json.obj [("type", Json.str "string")]]),
                 ("title", Json.str "Ignored")])
      (Json.obj [])
      = (handle_any_of 4 (Json.arr [Json.obj [("type", Json.str "string")]])
          (Json.obj []), Json.obj [])) ∧
    (create_pydantic_model 6
      (Json.obj [("oneOf", Json.arr [Json.obj [("properties",
          Json.obj [("type", Json.obj [("const", Json.str "cat")])])]]),
        ("title", Json.str "Ignored")])
      (Json.obj [])
      = (handle_one_of 4
          (Json.obj [("oneOf", Json.arr [Json.obj [("properties",
              Json.obj [("type", Json.obj [("const", Json.str "cat")])])]]),
            ("title", Json.str "Ignored")])
          (Json.obj []), Json.obj [])) ∧
    (create_pydantic_model 7
      (Json.obj [("oneOf", Json.arr [Json.obj [("properties",
          Json.obj [("type", Json.obj [("const", Json.str "cat")])])]]),
        ("title", Json.str "A"),
        ("properties", Json.obj [("x", Json.obj [("type", Json.str "string")])]),
        ("required", Json.arr [Json.str "x"])])
      (Json.obj [])
      = create_pydantic_model 7
          (Json.obj [("oneOf", Json.arr [Json.obj [("properties",
              Json.obj [("type", Json.obj [("const", Json.str "cat")])])]])])
          (Json.obj [])) :=
  ⟨C6_ref_then_combinators_in_order.1 4
      [("$ref", Json.str "#/definitions/T"),
       ("allOf", Json.arr [Json.obj []])]
      (Json.obj [("definitions",
        Json.obj [("T", Json.obj [("title", Json.str "RefTarget")])])])
      (Json.obj [("definitions",
        Json.obj [("T", Json.obj [("title", Json.str "RefTarget")])])])
      (Json.obj [("title", Json.str "RefTarget")])
      "#/definitions/T" [] rfl rfl,
   C6_ref_then_combinators_in_order.2.1 4
      [("allOf", Json.arr [Json.obj [("properties", Json.obj [])]]),
       ("title", Json.str "Ignored")]
      (Json.obj []) (Json.arr [Json.obj [("properties", Json.obj [])]])
      rfl rfl,
   C6_ref_then_combinators_in_order.2.2.1 4
      [("anyOf", Json.arr [Json.obj [("type", Json.str "string")]]),
       ("title", Json.str "Ignored")]
      (Json.obj []) (Json.arr [Json.obj [("type", Json.str "string")]])
      rfl rfl rfl,
   C6_ref_then_combinators_in_order.2.2.2.1 4
      [("oneOf", Json.arr [Json.obj [("properties",
          Json.obj [("type", Json.obj [("const", Json.str "cat")])])]]),
       ("title", Json.str "Ignored")]
      (Json.obj [])
      (Json.arr [Json.obj [("properties",
          Json.obj [("type", Json.obj [("const", Json.str "cat")])])]])
      rfl rfl rfl rfl,
   C6_ref_then_combinators_in_order.2.2.2.2 6
      [("oneOf", Json.arr [Json.obj [("properties",
          Json.obj [("type", Json.obj [("const", Json.str "cat")])])]]),
       ("title", Json.str "A"),
       ("properties", Json.obj [("x", Json.obj [("type", Json.str "string")])]),
       ("required", Json.arr [Json.str "x"])]
      [("oneOf", Json.arr [Json.obj [("properties",
          Json.obj [("type", Json.obj [("const", Json.str "cat")])])]])]
      (Json.obj []) rfl rfl rfl rfl rfl
      (Or.inr (Or.inr (by decide)))⟩
